import Mathlib

/-!
# Bunkers and Badasses: the actor document (`src/module/documents/actor.mjs`)

A shallow embedding of `BNBActor` and the properties of its derived-data pass,
its schema migration, its roll-data projection, its creation flags and its
melee chat-card handler.

Modelling conventions.

* The numeric fields of the actor schema hold JavaScript primitives (`JSVal`):
  `undefined`, `null`, a boolean, an integral number or `NaN`.  A property that
  is absent from an object reads as `undefined`, so an absent numeric field is
  the value `JSVal.undefined`.  Numbers are integers (exact in a double up to
  2^53); fractions, infinities and strings in numeric positions are outside the
  model.
* A JavaScript object with dynamic keys is an association list read by first
  match (`lookupKey`); the prototype chain is not modelled.
* A `TypeError` (a property read on `undefined`) is `Except.error`; the
  theorems on a state after a pass take the completed pass as hypothesis, and
  `pass_completes_iff` and `rollData_completes_iff` say when a pass completes.
* `this.update(...)` is recorded in the actor's `updateCalls` log.
* The roll-data mapping is an untyped tree (`RollValue`); a deep clone of a
  value is the value, so aliasing between a nested entry and its top-level copy
  is not expressible.
* The data attributes of a chat-card button are strings, `none` when missing
  (`DataSet`); the host calls of the handler (the actor lookup, the dice
  engine, the template renderer, the chat sink) are not modelled: the lookup
  result is an input and the roll is recorded by its formula.
-/

namespace BNB

/-! ## JavaScript primitives -/

/-- JavaScript primitive values occurring in numeric schema fields. -/
inductive JSVal where
  | undefined
  | null
  | bool (b : Bool)
  | num (n : Int)
  | nan
  deriving DecidableEq, Repr

namespace JSVal

/-- The abstract operation `ToNumber`; `none` stands for `NaN`. -/
def toNumber : JSVal → Option Int
  | undefined => none
  | null => some 0
  | bool b => some (if b then 1 else 0)
  | num n => some n
  | nan => none

/-- The abstract operation `ToBoolean`, as used by `?:`, `if` and `!`. -/
def truthy : JSVal → Bool
  | undefined => false
  | null => false
  | bool b => b
  | num n => decide (n ≠ 0)
  | nan => false

/-- The test `x == null` (true of `null` and `undefined` only). -/
def isNullish : JSVal → Bool
  | undefined => true
  | null => true
  | _ => false

/-- The operator `a ?? d`. -/
def orElse (a d : JSVal) : JSVal :=
  if a.isNullish then d else a

/-- The operator `a + b` on non-string primitives. -/
def add (a b : JSVal) : JSVal :=
  match a.toNumber, b.toNumber with
  | some x, some y => num (x + y)
  | _, _ => nan

/-- The expression `Math.floor(v / 2)`. -/
def floorHalf (v : JSVal) : JSVal :=
  match v.toNumber with
  | some n => num (Int.fdiv n 2)
  | none => nan

end JSVal

/-! ## Objects with dynamic keys -/

/-- The property read `obj[k]` on an object given by its entries: the first entry
named `k`, or `none` when there is no such own property. -/
def lookupKey {β : Type} (k : String) : List (String × β) → Option β
  | [] => none
  | (k', v) :: rest => if k' = k then some v else lookupKey k rest

/-- The property read `obj[k]` on an object of primitives: `undefined` when absent. -/
def getNum (obj : List (String × JSVal)) (k : String) : JSVal :=
  (lookupKey k obj).getD JSVal.undefined

/-! ## The actor schema -/

/-- An entry of `system.bonus.stats`: `{ value, mod }`. -/
structure StatBonus where
  value : JSVal
  mod : JSVal
  deriving DecidableEq, Repr

/-- An entry of `system.stats`.  `effects`, `value`, `mod` and `modToUse` are
written by the derived-data pass. -/
structure Stat where
  misc : JSVal
  modBonus : JSVal
  effects : Option StatBonus
  value : JSVal
  mod : JSVal
  modToUse : JSVal
  deriving DecidableEq, Repr

/-- An entry of `system.checks`.  `value`, `effects` and `total` are written by
the derived-data pass. -/
structure Check where
  stat : String
  value : JSVal
  misc : JSVal
  effects : JSVal
  total : JSVal
  usesBadassRank : JSVal
  base : JSVal
  deriving DecidableEq, Repr

/-- An entry of `system.bonus.combat`: `{ acc, dmg, critdmg }`. -/
structure CombatBonus where
  acc : JSVal
  dmg : JSVal
  critdmg : JSVal
  deriving DecidableEq, Repr

/-- The object `system.bonus`. -/
structure Bonus where
  stats : List (String × StatBonus)
  checks : List (String × JSVal)
  combat : List (String × CombatBonus)
  deriving DecidableEq, Repr

/-- The object `system.attributes.badass`. -/
structure Badass where
  rank : JSVal
  rollsEnabled : JSVal
  deriving DecidableEq, Repr

/-- The object `system.attributes`. -/
structure Attributes where
  badass : Badass
  deriving DecidableEq, Repr

/-- The object `system.archetypes.archetype1`. -/
structure Archetype where
  baseStats : List (String × JSVal)
  deriving DecidableEq, Repr

/-- The object `system.archetypes`. -/
structure Archetypes where
  archetype1 : Archetype
  deriving DecidableEq, Repr

/-- The object `system.class`; `meleeDice` is a dice expression such as `1d6`,
`none` when the property is absent. -/
structure ClassData where
  baseStats : List (String × JSVal)
  meleeDice : Option String := none
  deriving DecidableEq, Repr

/-- The object `system.archetypeLevelBonusTotals.bonusDamage`. -/
structure BonusDamage where
  anyAttack : JSVal
  shootingAttack : JSVal
  meleeAttack : JSVal
  grenade : JSVal
  perHit : JSVal
  perCrit : JSVal
  ifAnyCrit : JSVal
  onNat20 : JSVal
  deriving DecidableEq, Repr

/-- The object `system.archetypeLevelBonusTotals`; its `stats` mapping and its
`bonusDamage` object may be absent. -/
structure ArchetypeLevelBonusTotals where
  stats : Option (List (String × JSVal))
  bonusDamage : Option BonusDamage := none
  deriving DecidableEq, Repr

/-- The object `actor.system` (`class_` is the property `class`). -/
structure ActorSystem where
  archetypes : Archetypes
  archetypeLevelBonusTotals : Option ArchetypeLevelBonusTotals
  class_ : ClassData
  stats : List (String × Stat)
  checks : List (String × Check)
  bonus : Bonus
  attributes : Attributes
  deriving DecidableEq, Repr

/-- The argument of one `this.update(...)` call: an object of dotted paths. -/
abbrev UpdateData := List (String × Check)

/-- An actor document.  `updateCalls` lists the `this.update` calls issued so
far, oldest first. -/
structure Actor where
  type : String
  system : ActorSystem
  updateCalls : List UpdateData
  deriving DecidableEq, Repr

/-! ## Schema migration (`_updateVaultHunterDataVersions`) -/

/-- The literal `{ stat: "acc", value: 0, misc: 0 }` (the other properties absent). -/
def throwDefault : Check :=
  { stat := "acc", value := .num 0, misc := .num 0, effects := .undefined,
    total := .undefined, usesBadassRank := .undefined, base := .undefined }

/-- The method `_updateVaultHunterDataVersions(actorData)`, called with
`actorData` being `this`. -/
def _updateVaultHunterDataVersions (actorData : Actor) : Actor :=
  if actorData.type ≠ "vault hunter" then actorData
  else
    match lookupKey "throw" actorData.system.checks with
    | some _ => actorData
    | none =>
      { actorData with
        system := { actorData.system with
          checks := actorData.system.checks ++ [("throw", throwDefault)] }
        updateCalls := actorData.updateCalls ++ [[("system.checks.throw", throwDefault)]] }

/-! ## Derived data (`_prepareVaultHunterDerivedData`) -/

/-- The expression `actorSystem?.archetypeLevelBonusTotals?.stats`. -/
def archetypeLevelUpStats (actorSystem : ActorSystem) : Option (List (String × JSVal)) :=
  match actorSystem.archetypeLevelBonusTotals with
  | some t => t.stats
  | none => none

/-- The body of the `forEach` over `Object.entries(actorSystem.stats)`. -/
def prepareStat (actorSystem : ActorSystem) (key : String) (statData : Stat) : Stat :=
  let effects : StatBonus :=
    (lookupKey key actorSystem.bonus.stats).getD { value := .num 0, mod := .num 0 }
  let value :=
    ((((getNum actorSystem.archetypes.archetype1.baseStats key).add
        (getNum actorSystem.class_.baseStats key)).add statData.misc).add effects.value).add
      (match archetypeLevelUpStats actorSystem with
       | some m => getNum m key
       | none => .num 0)
  let mod := (value.floorHalf.add (statData.modBonus.orElse (.num 0))).add effects.mod
  { statData with
    effects := some effects
    value := value
    mod := mod
    modToUse := if actorSystem.attributes.badass.rollsEnabled.truthy then value else mod }

/-- The stats loop: every entry is rewritten in place. -/
def prepareStats (actorSystem : ActorSystem) : List (String × Stat) :=
  actorSystem.stats.map (fun e => (e.1, prepareStat actorSystem e.1 e.2))

/-- The effect bonus of a check (the `if / else if / else` of the checks loop). -/
def checkEffects (bonus : Bonus) (check : String) : Except String JSVal :=
  if (getNum bonus.checks check).isNullish = false then
    .ok (getNum bonus.checks check)
  else
    match lookupKey check bonus.combat with
    | some c =>
      match lookupKey "attack" bonus.combat with
      | some attack => .ok (c.acc.add attack.acc)
      | none => .error "TypeError: actorSystem.bonus.combat.attack is undefined"
    | none => .ok (.num 0)

/-- The body of the `forEach` over `Object.entries(actorSystem.checks)`;
`actorSystem.stats` already holds the recomputed stats. -/
def prepareCheck (actorSystem : ActorSystem) (check : String) (checkData : Check) :
    Except String Check :=
  match lookupKey checkData.stat actorSystem.stats with
  | none => .error "TypeError: actorSystem.stats[checkData.stat] is undefined"
  | some stat =>
    match checkEffects actorSystem.bonus check with
    | .error e => .error e
    | .ok effects =>
      let value := stat.modToUse
      .ok { checkData with
            value := value
            effects := effects
            total :=
              ((((if checkData.usesBadassRank.truthy then actorSystem.attributes.badass.rank
                  else .num 0).add (checkData.base.orElse (.num 0))).add value).add
                checkData.misc).add effects }

/-- The checks loop: entries are processed in order and the first `TypeError`
aborts the pass. -/
def prepareChecks (actorSystem : ActorSystem) :
    List (String × Check) → Except String (List (String × Check))
  | [] => .ok []
  | (check, checkData) :: rest =>
    match prepareCheck actorSystem check checkData with
    | .error e => .error e
    | .ok checkData' =>
      match prepareChecks actorSystem rest with
      | .error e => .error e
      | .ok rest' => .ok ((check, checkData') :: rest')

/-- The method `_prepareVaultHunterDerivedData(actorData)`. -/
def _prepareVaultHunterDerivedData (actorData : Actor) : Except String Actor :=
  if actorData.type ≠ "vault hunter" then .ok actorData
  else
    let actorData := _updateVaultHunterDataVersions actorData
    let actorSystem := { actorData.system with stats := prepareStats actorData.system }
    match prepareChecks actorSystem actorSystem.checks with
    | .error e => .error e
    | .ok checks => .ok { actorData with system := { actorSystem with checks := checks } }

/-! ## Roll data (`_getVaultHunterRollData`) -/

/-- A value of the roll-data mapping handed over by the host: a primitive, a
string (of characters of the basic multilingual plane) or an object. -/
inductive RollValue where
  | prim (v : JSVal)
  | str (s : String)
  | obj (fields : List (String × RollValue))

/-- The roll-data mapping `data` itself: an object, given by its entries. -/
abbrev RollData := List (String × RollValue)

namespace RollValue

/-- The abstract operation `ToBoolean`. -/
def truthy : RollValue → Bool
  | prim v => v.truthy
  | str s => decide (s ≠ "")
  | obj _ => true

/-- The test `x == null`. -/
def isNullish : RollValue → Bool
  | prim v => v.isNullish
  | _ => false

/-- The operator `a ?? d`. -/
def orElse (a d : RollValue) : RollValue :=
  if a.isNullish then d else a

/-- The call `Object.entries(v)` for a truthy `v`: the own properties of an
object, the indexed characters of a string, nothing for a number or boolean. -/
def entries : RollValue → List (String × RollValue)
  | obj fields => fields
  | str s => s.toList.enum.map (fun p => (toString p.1, str (String.singleton p.2)))
  | prim _ => []

/-- The property read `v.k` for a name `k` that no primitive wrapper defines
(the projection reads `level` and `value` only): a `TypeError` on `undefined`
and `null`, the own property of an object, `undefined` otherwise. -/
def get (v : RollValue) (k : String) : Except String RollValue :=
  match v with
  | prim .undefined => .error "TypeError: cannot read properties of undefined"
  | prim .null => .error "TypeError: cannot read properties of null"
  | obj fields => .ok ((lookupKey k fields).getD (prim .undefined))
  | _ => .ok (prim .undefined)

end RollValue

/-- The property read `data[k]` on the roll-data mapping. -/
def getTop (data : RollData) (k : String) : RollValue :=
  (lookupKey k data).getD (.prim .undefined)

/-- The assignment `data[k] = v`: an existing property is overwritten in place,
a new one is added at the end. -/
def setKey (data : RollData) (k : String) (v : RollValue) : RollData :=
  match data with
  | [] => [(k, v)]
  | (k', v') :: rest => if k' = k then (k, v) :: rest else (k', v') :: setKey rest k v

/-- The host helper `foundry.utils.deepClone`: the copy of an immutable value
is the value. -/
def deepClone (v : RollValue) : RollValue := v

/-- One of the three blocks `if (data.name) { for (let [k, v] of
Object.entries(data.name)) data[k] = deepClone(v) }`. -/
def flattenInto (data : RollData) (name : String) : RollData :=
  if (getTop data name).truthy then
    (getTop data name).entries.foldl (fun d e => setKey d e.1 (deepClone e.2)) data
  else data

/-- The three flattening blocks of `_getVaultHunterRollData`, in source order. -/
def flattenAll (data : RollData) : RollData :=
  flattenInto (flattenInto (flattenInto data "abilities") "stats") "hps"

/-- The final block of `_getVaultHunterRollData`: `if (data.attributes.level)
data.lvl = data.attributes.level.value ?? 0`. -/
def addLevel (data : RollData) : Except String RollData :=
  match (getTop data "attributes").get "level" with
  | .error e => .error e
  | .ok level =>
    if level.truthy then
      match level.get "value" with
      | .error e => .error e
      | .ok value => .ok (setKey data "lvl" (value.orElse (.prim (.num 0))))
    else .ok data

/-- The method `_getVaultHunterRollData(data)` of the actor `self`; the result
is the mapping `data` as the method leaves it. -/
def _getVaultHunterRollData (self : Actor) (data : RollData) : Except String RollData :=
  if self.type ≠ "vault hunter" then .ok data
  else addLevel (flattenAll data)

/-! ## Sample actors -/

/-- A stat entry with the given source fields and no derived fields yet. -/
def freshStat (misc modBonus : JSVal) : Stat :=
  { misc := misc, modBonus := modBonus, effects := none, value := .undefined,
    mod := .undefined, modToUse := .undefined }

/-- A check entry with the given source fields and no derived fields yet. -/
def freshCheck (stat : String) (misc usesBadassRank base : JSVal) : Check :=
  { stat := stat, value := .undefined, misc := misc, effects := .undefined,
    total := .undefined, usesBadassRank := usesBadassRank, base := base }

/-- A vault hunter without a `throw` check whose level-up bonuses cover every stat. -/
def sampleHunter : Actor :=
  { type := "vault hunter"
    updateCalls := []
    system :=
      { archetypes := { archetype1 := { baseStats := [("acc", .num 2), ("dmg", .num 1)] } }
        archetypeLevelBonusTotals := some { stats := some [("acc", .num 1), ("dmg", .num 0)] }
        class_ := { baseStats := [("acc", .num 1), ("dmg", .num (-4))] }
        stats := [("acc", freshStat (.num 1) .undefined), ("dmg", freshStat (.num 0) (.num 1))]
        checks := [("shooting", freshCheck "acc" (.num 1) (.bool true) .undefined),
                   ("melee", freshCheck "dmg" (.num 0) .undefined (.num 2)),
                   ("interact", freshCheck "acc" (.num 0) .undefined .undefined)]
        bonus :=
          { stats := [("acc", { value := .num 1, mod := .num 1 })]
            checks := [("interact", .num 0)]
            combat := [("shooting", { acc := .num 2, dmg := .num 0, critdmg := .num 0 }),
                       ("interact", { acc := .num 7, dmg := .num 0, critdmg := .num 0 }),
                       ("attack", { acc := .num 1, dmg := .num 0, critdmg := .num 0 })] }
        attributes := { badass := { rank := .num 3, rollsEnabled := .bool false } } } }

/-- The actor `sampleHunter` with level-up bonuses recorded for `dmg` only. -/
def partialLevelUpHunter : Actor :=
  { sampleHunter with
    system := { sampleHunter.system with
      archetypeLevelBonusTotals := some { stats := some [("dmg", .num 1)] } } }

/-- The state `sampleHunter` is left in by one derived-data pass. -/
def sampleHunterPrepared : Actor :=
  { sampleHunter with
    updateCalls := [[("system.checks.throw", throwDefault)]]
    system := { sampleHunter.system with
      stats :=
        [("acc", { misc := .num 1, modBonus := .undefined,
                   effects := some { value := .num 1, mod := .num 1 },
                   value := .num 6, mod := .num 4, modToUse := .num 4 }),
         ("dmg", { misc := .num 0, modBonus := .num 1,
                   effects := some { value := .num 0, mod := .num 0 },
                   value := .num (-3), mod := .num (-1), modToUse := .num (-1) })]
      checks :=
        [("shooting", { stat := "acc", value := .num 4, misc := .num 1, effects := .num 3,
                        total := .num 11, usesBadassRank := .bool true, base := .undefined }),
         ("melee", { stat := "dmg", value := .num (-1), misc := .num 0, effects := .num 0,
                     total := .num 1, usesBadassRank := .undefined, base := .num 2 }),
         ("interact", { stat := "acc", value := .num 4, misc := .num 0, effects := .num 0,
                        total := .num 4, usesBadassRank := .undefined, base := .undefined }),
         ("throw", { stat := "acc", value := .num 4, misc := .num 0, effects := .num 0,
                     total := .num 4, usesBadassRank := .undefined, base := .undefined })] } }

/-- The data of `sampleHunter` on an actor of type `npc`. -/
def sampleNpc : Actor :=
  { sampleHunter with type := "npc" }

/-! ## Keys of the sub-mappings and sample roll data -/

/-- The keys of the sub-mapping `data[name]`, in the order of `Object.entries`. -/
def subKeys (data : RollData) (name : String) : List String :=
  (getTop data name).entries.map Prod.fst

/-- A roll-data mapping of a vault hunter of level 2. -/
def sampleRollData : RollData :=
  [("abilities", .obj [("str", .obj [("value", .prim (.num 3))])]),
   ("stats", .obj [("acc", .obj [("value", .prim (.num 6)), ("mod", .prim (.num 4))]),
                   ("dmg", .obj [("value", .prim (.num (-3))), ("mod", .prim (.num (-1)))])]),
   ("hps", .obj [("flesh", .obj [("value", .prim (.num 10)), ("max", .prim (.num 12))])]),
   ("attributes", .obj [("level", .obj [("value", .prim (.num 2))])])]

/-- The mapping `sampleRollData` after `_getVaultHunterRollData`. -/
def sampleRollDataResult : RollData :=
  sampleRollData ++
    [("str", .obj [("value", .prim (.num 3))]),
     ("acc", .obj [("value", .prim (.num 6)), ("mod", .prim (.num 4))]),
     ("dmg", .obj [("value", .prim (.num (-3))), ("mod", .prim (.num (-1)))]),
     ("flesh", .obj [("value", .prim (.num 10)), ("max", .prim (.num 12))]),
     ("lvl", .prim (.num 2))]

/-- A roll-data mapping in which `abilities` and `stats` both hold a key `acc`. -/
def sharedKeyRollData : RollData :=
  [("abilities", .obj [("acc", .prim (.num 1))]),
   ("stats", .obj [("acc", .prim (.num 2))]),
   ("attributes", .obj [])]

/-- A roll-data mapping in which `abilities` holds a key named `stats`. -/
def shadowingRollData : RollData :=
  [("abilities", .obj [("stats", .prim (.num 1))]),
   ("stats", .obj [("acc", .prim (.num 2))]),
   ("attributes", .obj [])]

/-- A roll-data mapping in which `abilities` holds a key named `lvl`. -/
def lvlKeyRollData : RollData :=
  [("abilities", .obj [("lvl", .prim (.num 9))]),
   ("attributes", .obj [("level", .obj [("value", .prim (.num 2))])])]

/-- A roll-data mapping whose `attributes` hold no `level`. -/
def noLevelRollData : RollData :=
  [("stats", .obj [("acc", .prim (.num 2))]),
   ("attributes", .obj [])]

/-- A roll-data mapping whose `attributes.level` holds no `value`. -/
def noLevelValueRollData : RollData :=
  [("attributes", .obj [("level", .obj [])])]

/-! ## Source fields and derived fields -/

/-- The checks of a vault hunter once the migration has run. -/
def migratedChecks (checks : List (String × Check)) : List (String × Check) :=
  match lookupKey "throw" checks with
  | some _ => checks
  | none => checks ++ [("throw", throwDefault)]

/-- The update log of a vault hunter once the migration has run. -/
def migratedCalls (a : Actor) : List UpdateData :=
  match lookupKey "throw" a.system.checks with
  | some _ => a.updateCalls
  | none => a.updateCalls ++ [[("system.checks.throw", throwDefault)]]

/-- A stat entry with its derived fields (`effects`, `value`, `mod`, `modToUse`)
blanked: what is left are the source fields. -/
def Stat.clearDerived (s : Stat) : Stat :=
  { s with effects := none, value := .undefined, mod := .undefined, modToUse := .undefined }

/-- A check entry with its derived fields (`value`, `effects`, `total`) blanked. -/
def Check.clearDerived (c : Check) : Check :=
  { c with value := .undefined, effects := .undefined, total := .undefined }

/-- An actor with the derived fields of all its stats and checks blanked.  Two
actors agree on all source fields exactly when their images are equal. -/
def Actor.clearDerived (a : Actor) : Actor :=
  { a with
    system := { a.system with
      stats := a.system.stats.map (fun e => (e.1, e.2.clearDerived))
      checks := a.system.checks.map (fun e => (e.1, e.2.clearDerived)) } }

/-- The checks loop raises no `TypeError` on the check `check`: the stat it
names exists, and `bonus.combat.attack` exists if the combat bonus is read. -/
def checkResolves (actorSystem : ActorSystem) (check : String) (checkData : Check) : Bool :=
  (lookupKey checkData.stat actorSystem.stats).isSome &&
    (!(getNum actorSystem.bonus.checks check).isNullish ||
      (lookupKey check actorSystem.bonus.combat).isNone ||
      (lookupKey "attack" actorSystem.bonus.combat).isSome)

/-! ## The stat value as the specification words it -/

/-- The stat value of the specification: archetype base + class base + misc +
effects value + archetype level-up bonus, the effects being `bonus.stats[key]`
or `{ value: 0, mod: 0 }`, and the level-up bonus counting as 0 when it is
absent, be it the whole mapping or the entry of the key. -/
def specStatValue (actorSystem : ActorSystem) (key : String) (misc : JSVal) : JSVal :=
  ((((getNum actorSystem.archetypes.archetype1.baseStats key).add
      (getNum actorSystem.class_.baseStats key)).add misc).add
    ((lookupKey key actorSystem.bonus.stats).getD { value := .num 0, mod := .num 0 }).value).add
    (((archetypeLevelUpStats actorSystem).bind (lookupKey key)).getD (.num 0))

/-! ## Actor creation (`_preCreate`) -/

/-- The object `gameFlags` that `_preCreate` hands to the health-bar builder. -/
structure GameFlags where
  useArmor : JSVal
  useBone : JSVal
  useEridian : JSVal
  useFlesh : JSVal
  useShield : JSVal
  deriving DecidableEq, Repr

/-- The object literal `gameFlags` of `_preCreate(data, options, user)`;
`settings key` is `game.settings.get('bunkers-and-badasses', key)` and
`dataType` is `data.type`. -/
def gameFlags (settings : String → JSVal) (dataType : String) : GameFlags :=
  { useArmor := if dataType = "npc" then .bool true else settings "usePlayerArmor"
    useBone := if dataType = "npc" then settings "useNpcBone" else settings "usePlayerBone"
    useEridian :=
      if dataType = "npc" then settings "useNpcEridian" else settings "usePlayerEridian"
    useFlesh := .bool true
    useShield := .bool true }

/-! ## The type-dispatched hooks -/

/-- The method `_prepareVaultHunterBaseData()`: a type guard and nothing else. -/
def _prepareVaultHunterBaseData (self : Actor) : Actor :=
  if self.type ≠ "vault hunter" then self else self

/-- The method `_prepareNpcBaseData()`: a type guard and nothing else. -/
def _prepareNpcBaseData (self : Actor) : Actor :=
  if self.type ≠ "npc" then self else self

/-- The hooks of `prepareBaseData()`, after the host's `super.prepareBaseData()`. -/
def prepareBaseData (self : Actor) : Actor :=
  _prepareNpcBaseData (_prepareVaultHunterBaseData self)

/-- The method `_prepareNpcDerivedData(actorData)`: a type guard and nothing else. -/
def _prepareNpcDerivedData (actorData : Actor) : Actor :=
  if actorData.type ≠ "npc" then actorData else actorData

/-- The hooks of `prepareDerivedData()`, after the host's
`super.prepareDerivedData()`; the unused constant `flags` is left out. -/
def prepareDerivedData (self : Actor) : Except String Actor :=
  match _prepareVaultHunterDerivedData self with
  | .error e => .error e
  | .ok actorData => .ok (_prepareNpcDerivedData actorData)

/-- The method `_getNpcRollData(data)`: a type guard and nothing else. -/
def _getNpcRollData (self : Actor) (data : RollData) : RollData :=
  if self.type ≠ "npc" then data else data

/-- The method `getRollData()` on the mapping `data` that the host's
`super.getRollData()` returned. -/
def getRollData (self : Actor) (data : RollData) : Except String RollData :=
  match _getVaultHunterRollData self data with
  | .error e => .error e
  | .ok data' => .ok (_getNpcRollData self data')

/-! ## The melee chat card (`_onChatMeleeCardDamage`) -/

/-- The data attributes `event.currentTarget.dataset` of the clicked button.
The DOM supplies every attribute as a string; `none` is a missing attribute
(`undefined`). -/
structure DataSet where
  actorId : Option String
  attackType : Option String
  hits : Option String
  crits : Option String
  plusOneDice : Option String
  doubleDamage : Option String
  crit : Option String
  critHit : Option String
  deriving DecidableEq, Repr

/-- The value of a run of decimal digits, `none` if another character occurs. -/
def digitsValue : List Char → Nat → Option Nat
  | [], acc => some acc
  | c :: cs, acc => if c.isDigit then digitsValue cs (acc * 10 + (c.toNat - 48)) else none

/-- The abstract operation `StringToNumber` on the empty string (0) and on
optionally signed runs of decimal digits; `none` stands for `NaN`.  Other
numeric literals (fractions, exponents, hexadecimal, `Infinity`, surrounding
white space) are outside the model. -/
def stringToNumber (s : String) : Option Int :=
  match s.toList with
  | [] => some 0
  | c :: cs =>
    if c = '-' then
      (if cs = [] then none else (digitsValue cs 0).map (fun n => -(n : Int)))
    else if c = '+' then
      (if cs = [] then none else (digitsValue cs 0).map (fun n => (n : Int)))
    else (digitsValue (c :: cs) 0).map (fun n => (n : Int))

/-- The number that `*` sees in the operand `attr ?? 0` for a data attribute. -/
def attrOrZero (attr : Option String) : JSVal :=
  match attr with
  | none => .num 0
  | some s =>
    match stringToNumber s with
    | some n => .num n
    | none => .nan

/-- The abstract operation `ToBoolean` on a data attribute: a missing attribute
and the empty string are falsy, every other string is truthy. -/
def attrTruthy (attr : Option String) : Bool :=
  match attr with
  | none => false
  | some s => decide (s ≠ "")

/-- The operator `a * b` on non-string primitives. -/
def JSVal.mul (a b : JSVal) : JSVal :=
  match a.toNumber, b.toNumber with
  | some x, some y => .num (x * y)
  | _, _ => .nan

/-- The test `v > 0`. -/
def JSVal.gtZero (v : JSVal) : Bool :=
  match v.toNumber with
  | some n => decide (0 < n)
  | none => false

/-- The text a template literal inserts for a primitive (`ToString`). -/
def JSVal.toStr : JSVal → String
  | .undefined => "undefined"
  | .null => "null"
  | .bool b => if b then "true" else "false"
  | .num n => toString n
  | .nan => "NaN"

/-- The expression `actorSystem?.archetypeLevelBonusTotals?.bonusDamage`. -/
def archetypeBonusDamages (actorSystem : ActorSystem) : Option BonusDamage :=
  match actorSystem.archetypeLevelBonusTotals with
  | some t => t.bonusDamage
  | none => none

/-- The expression `archetypeBonusDamages?.field ?? 0`. -/
def bonusOrZero (bonus : Option BonusDamage) (field : BonusDamage → JSVal) : JSVal :=
  match bonus with
  | some b => (field b).orElse (.num 0)
  | none => .num 0

/-- The summand `dataSet.crits ? (archetypeBonusDamages?.ifAnyCrit ?? 0) : 0` of
`levelUpDamage`. -/
def ifAnyCritBonus (bonus : Option BonusDamage) (dataSet : DataSet) : JSVal :=
  if attrTruthy dataSet.crits then bonusOrZero bonus BonusDamage.ifAnyCrit else .num 0

/-- The constant `levelUpDamage` of `_onChatMeleeCardDamage`. -/
def levelUpDamage (actorSystem : ActorSystem) (dataSet : DataSet) : JSVal :=
  let bonus := archetypeBonusDamages actorSystem
  ((((((((JSVal.num 0).add (bonusOrZero bonus BonusDamage.anyAttack)).add
    (if dataSet.attackType = some "shooting" then bonusOrZero bonus BonusDamage.shootingAttack
     else .num 0)).add
    (if dataSet.attackType = some "melee" then bonusOrZero bonus BonusDamage.meleeAttack
     else .num 0)).add
    (if dataSet.attackType = some "grenade" then bonusOrZero bonus BonusDamage.grenade
     else .num 0)).add
    ((bonusOrZero bonus BonusDamage.perHit).mul (attrOrZero dataSet.hits))).add
    ((bonusOrZero bonus BonusDamage.perCrit).mul (attrOrZero dataSet.crits))).add
    (ifAnyCritBonus bonus dataSet)).add
    (if attrTruthy dataSet.critHit then bonusOrZero bonus BonusDamage.onNat20 else .num 0)

/-- The flat bonus-damage total as the specification words it: any-attack bonus
+ the bonus of the attack type + per-hit bonus × hits + per-crit bonus × crits
+ the if-any-crit bonus when at least one crit occurred (the crit count is
greater than 0) + the natural-20 bonus when `critHit` is set, every absent
bonus counting as 0. -/
def specLevelUpDamage (actorSystem : ActorSystem) (dataSet : DataSet) : JSVal :=
  let bonus := archetypeBonusDamages actorSystem
  (((((bonusOrZero bonus BonusDamage.anyAttack).add
    (if dataSet.attackType = some "shooting" then bonusOrZero bonus BonusDamage.shootingAttack
     else if dataSet.attackType = some "melee" then bonusOrZero bonus BonusDamage.meleeAttack
     else if dataSet.attackType = some "grenade" then bonusOrZero bonus BonusDamage.grenade
     else .num 0)).add
    ((bonusOrZero bonus BonusDamage.perHit).mul (attrOrZero dataSet.hits))).add
    ((bonusOrZero bonus BonusDamage.perCrit).mul (attrOrZero dataSet.crits))).add
    (if (attrOrZero dataSet.crits).gtZero then bonusOrZero bonus BonusDamage.ifAnyCrit
     else .num 0)).add
    (if attrTruthy dataSet.critHit then bonusOrZero bonus BonusDamage.onNat20 else .num 0)

/-- The expression `actorSystem?.bonus?.combat?.[name]?.dmg ?? 0`. -/
def combatDmg (actorSystem : ActorSystem) (name : String) : JSVal :=
  match lookupKey name actorSystem.bonus.combat with
  | some c => c.dmg.orElse (.num 0)
  | none => .num 0

/-- The expression `actorSystem?.bonus?.combat?.[name]?.critdmg ?? 0`. -/
def combatCritDmg (actorSystem : ActorSystem) (name : String) : JSVal :=
  match lookupKey name actorSystem.bonus.combat with
  | some c => c.critdmg.orElse (.num 0)
  | none => .num 0

/-- The constant `rollPlusOneDice`. -/
def rollPlusOneDice (actorSystem : ActorSystem) (dataSet : DataSet) : String :=
  if dataSet.plusOneDice = some "true" then
    " + " ++ (match actorSystem.class_.meleeDice with
              | some dice => dice
              | none => "undefined")
  else ""

/-- The constant `rollDoubleDamage`. -/
def rollDoubleDamage (dataSet : DataSet) : String :=
  if dataSet.doubleDamage = some "true" then "2*" else ""

/-- The constant `effectDamage`. -/
def effectDamage (actorSystem : ActorSystem) : JSVal :=
  (combatDmg actorSystem "melee").add (combatDmg actorSystem "attack")

/-- The constant `critEffectDamage`. -/
def critEffectDamage (actorSystem : ActorSystem) : JSVal :=
  (combatCritDmg actorSystem "melee").add (combatCritDmg actorSystem "attack")

/-- The constant `rollCrit`. -/
def rollCrit (actorSystem : ActorSystem) (dataSet : DataSet) : String :=
  (if dataSet.crit = some "true" then " + 1d12[Crit]" else "") ++
    (if dataSet.crit = some "true" ∧ (critEffectDamage actorSystem).gtZero = true then
       " + " ++ (critEffectDamage actorSystem).toStr ++ "[Crit Effects]"
     else "")

/-- The constant `rollFormula`. -/
def rollFormula (actorSystem : ActorSystem) (dataSet : DataSet) : String :=
  rollDoubleDamage dataSet ++ "(" ++
    (actorSystem.class_.meleeDice.getD "0d0" ++ rollPlusOneDice actorSystem dataSet ++
      rollCrit actorSystem dataSet ++ " + @dmg[DMG " ++
      (if actorSystem.attributes.badass.rollsEnabled.truthy then "Stat" else "Mod") ++ "] ") ++
    (if (effectDamage actorSystem).gtZero then
       "+ " ++ (effectDamage actorSystem).toStr ++ "[Melee Dmg Effects]"
     else "") ++
    ")[Kinetic]"

/-- What `game.actors.get(dataSet.actorId)` returned. -/
inductive ActorLookup where
  | null
  | undefined
  | found (actor : Actor)

/-- What the handler did when it ran to its end: it evaluated a roll of
`rollFormula` and posted the result as a chat message. -/
structure MeleeCardRoll where
  rollFormula : String
  deriving DecidableEq, Repr

/-- The handler `_onChatMeleeCardDamage(event)` for the data attributes of the
event and the outcome of the actor lookup: `.ok none` is a return without roll
and without message, `.error` a `TypeError` raised in the handler (a rejected
promise, the handler being `async`). -/
def _onChatMeleeCardDamage (actor : ActorLookup) (dataSet : DataSet) :
    Except String (Option MeleeCardRoll) :=
  match actor with
  | .null => .ok none
  | .undefined => .error "TypeError: Cannot read properties of undefined (reading 'system')"
  | .found a => .ok (some { rollFormula := rollFormula a.system dataSet })

/-! ## Sample melee cards -/

/-- The bonus damages of the melee scenario: `anyAttack` 1, `meleeAttack` 2,
`perHit` 3, `perCrit` 5, `ifAnyCrit` 4, the others absent. -/
def scenarioBonusDamage : BonusDamage :=
  { anyAttack := .num 1, shootingAttack := .undefined, meleeAttack := .num 2,
    grenade := .undefined, perHit := .num 3, perCrit := .num 5, ifAnyCrit := .num 4,
    onNat20 := .undefined }

/-- The actor `sampleHunter` with melee dice `1d6` and the scenario's bonus damages. -/
def meleeHunter : Actor :=
  { sampleHunter with
    system := { sampleHunter.system with
      class_ := { sampleHunter.system.class_ with meleeDice := some "1d6" }
      archetypeLevelBonusTotals :=
        some { stats := some [("acc", .num 1), ("dmg", .num 0)]
               bonusDamage := some scenarioBonusDamage } } }

/-- The actor `meleeHunter` without any archetype level bonus. -/
def plainMeleeHunter : Actor :=
  { meleeHunter with
    system := { meleeHunter.system with archetypeLevelBonusTotals := none } }

/-- The data attributes of the melee scenario: a melee attack with 2 hits, 1 crit
and `crit` set. -/
def scenarioDataSet : DataSet :=
  { actorId := some "a1", attackType := some "melee", hits := some "2", crits := some "1",
    plusOneDice := some "false", doubleDamage := some "false", crit := some "true",
    critHit := none }

/-- The data attributes of a melee attack with 2 hits and no crit, the count of
crits being supplied as the string `0`. -/
def noCritDataSet : DataSet :=
  { actorId := some "a1", attackType := some "melee", hits := some "2", crits := some "0",
    plusOneDice := some "false", doubleDamage := some "false", crit := some "false",
    critHit := none }

/-- The data attributes of `noCritDataSet` without the attribute `crits`. -/
def missingCritsDataSet : DataSet :=
  { noCritDataSet with crits := none }

/-- The melee formula of `meleeHunter` in the melee scenario. -/
def scenarioFormula : String :=
  "(1d6 + 1d12[Crit] + @dmg[DMG Mod] )[Kinetic]"

/-- An actor with melee, crit and stat-roll effects: melee dice `2d8`, melee
damage bonus 2 + 1, crit damage bonus 4 + 0, badass rolls enabled. -/
def effectsHunter : Actor :=
  { sampleHunter with
    system := { sampleHunter.system with
      class_ := { sampleHunter.system.class_ with meleeDice := some "2d8" }
      bonus := { sampleHunter.system.bonus with
        combat := [("melee", { acc := .num 0, dmg := .num 2, critdmg := .num 4 }),
                   ("attack", { acc := .num 1, dmg := .num 1, critdmg := .num 0 })] }
      attributes := { badass := { rank := .num 3, rollsEnabled := .bool true } } } }

/-- A roll-data mapping in which `lvl` is a key of both `abilities` and `stats`
and a level is present. -/
def lvlCollisionRollData : RollData :=
  [("abilities", .obj [("lvl", .prim (.num 1))]),
   ("stats", .obj [("lvl", .prim (.num 2))]),
   ("attributes", .obj [("level", .obj [("value", .prim (.num 5))])])]

/-- A roll-data mapping in which `abilities` and `hps` each hold a key named
`stats`, next to a key `acc` of `abilities` and of `stats`. -/
def shadowedStatsRollData : RollData :=
  [("abilities", .obj [("stats", .obj [("acc", .prim (.num 9))]), ("acc", .prim (.num 1))]),
   ("stats", .obj [("acc", .prim (.num 2))]),
   ("hps", .obj [("stats", .obj [("acc", .prim (.num 5))])]),
   ("attributes", .obj [])]

/-- A roll-data mapping in which `acc` is a key of all three sub-mappings and of
the top level, and `spd` a key of `abilities` and `stats`. -/
def collidingRollData : RollData :=
  [("acc", .prim (.num 0)),
   ("abilities", .obj [("acc", .prim (.num 1)), ("spd", .prim (.num 4))]),
   ("stats", .obj [("acc", .prim (.num 2)), ("spd", .prim (.num 5))]),
   ("hps", .obj [("acc", .prim (.num 3))]),
   ("attributes", .obj [])]

/-- The mapping `collidingRollData` after `_getVaultHunterRollData`. -/
def collidingRollDataResult : RollData :=
  [("acc", .prim (.num 3)),
   ("abilities", .obj [("acc", .prim (.num 1)), ("spd", .prim (.num 4))]),
   ("stats", .obj [("acc", .prim (.num 2)), ("spd", .prim (.num 5))]),
   ("hps", .obj [("acc", .prim (.num 3))]),
   ("attributes", .obj []),
   ("spd", .prim (.num 5))]

/-- The number the claim reads in `bonus.combat[name].field`: 0 when the entry
is absent or the property is `null` or `undefined`, the number the property
holds otherwise (`none` for `NaN`). -/
def specCombatNumber (actorSystem : ActorSystem) (name : String)
    (field : CombatBonus → JSVal) : Option Int :=
  match lookupKey name actorSystem.bonus.combat with
  | none => some 0
  | some c =>
    match field c with
    | .undefined => some 0
    | .null => some 0
    | .bool b => some (if b then 1 else 0)
    | .num n => some n
    | .nan => none

/-- The condition `a + b > 0` of the claim on two such numbers. -/
def specSumPositive (a b : Option Int) : Bool :=
  match a, b with
  | some x, some y => decide (0 < x + y)
  | _, _ => false

/-- The actor `meleeHunter` with a melee dice expression that holds the text of
the crit die term. -/
def critLabelHunter : Actor :=
  { meleeHunter with
    system := { meleeHunter.system with
      class_ := { meleeHunter.system.class_ with meleeDice := some "1d4 + 1d12[Crit]" } } }

/-- The actor `meleeHunter` with a melee dice expression that carries the flavor
label `Melee Dmg Effects`. -/
def effectsLabelHunter : Actor :=
  { meleeHunter with
    system := { meleeHunter.system with
      class_ := { meleeHunter.system.class_ with meleeDice := some "1d6[Melee Dmg Effects]" } } }

/-! ## Lemmas on objects -/

theorem lookupKey_map {β γ : Type} (f : String → β → γ) (k : String) (l : List (String × β)) :
    lookupKey k (l.map (fun e => (e.1, f e.1 e.2))) = (lookupKey k l).map (f k) := by
  induction l with
  | nil => rfl
  | cons e rest ih =>
    obtain ⟨k', v⟩ := e
    by_cases hk : k' = k
    · subst hk; simp [lookupKey]
    · simp [lookupKey, hk, ih]

theorem lookupKey_append {β : Type} (k : String) (l r : List (String × β)) :
    lookupKey k (l ++ r) = (lookupKey k l).orElse (fun _ => lookupKey k r) := by
  induction l with
  | nil => rfl
  | cons e rest ih =>
    obtain ⟨k', v⟩ := e
    by_cases hk : k' = k
    · subst hk; simp [lookupKey]
    · simp [lookupKey, hk, ih]

/-! ## Lemmas on the migration and the derived-data pass -/

theorem migrate_type (a : Actor) : (_updateVaultHunterDataVersions a).type = a.type := by
  unfold _updateVaultHunterDataVersions
  split
  · rfl
  · split <;> rfl

theorem prepareStat_migrate (a : Actor) :
    prepareStat (_updateVaultHunterDataVersions a).system = prepareStat a.system := by
  unfold _updateVaultHunterDataVersions
  split
  · rfl
  · split
    · rfl
    · rfl

theorem migrate_stats (a : Actor) :
    (_updateVaultHunterDataVersions a).system.stats = a.system.stats := by
  unfold _updateVaultHunterDataVersions
  split
  · rfl
  · split <;> rfl

theorem migrate_bonus (a : Actor) :
    (_updateVaultHunterDataVersions a).system.bonus = a.system.bonus := by
  unfold _updateVaultHunterDataVersions
  split
  · rfl
  · split <;> rfl

theorem migrate_attributes (a : Actor) :
    (_updateVaultHunterDataVersions a).system.attributes = a.system.attributes := by
  unfold _updateVaultHunterDataVersions
  split
  · rfl
  · split <;> rfl

/-- The shape of a completed pass on a vault hunter: the migrated actor with
its stats and checks rewritten. -/
theorem pass_ok_shape (a a1 : Actor) (hty : a.type = "vault hunter")
    (h : _prepareVaultHunterDerivedData a = .ok a1) :
    ∃ cs, prepareChecks
        { (_updateVaultHunterDataVersions a).system with stats := prepareStats a.system }
        (_updateVaultHunterDataVersions a).system.checks = .ok cs ∧
      a1 = { _updateVaultHunterDataVersions a with
             system := { (_updateVaultHunterDataVersions a).system with
                         stats := prepareStats a.system, checks := cs } } := by
  unfold _prepareVaultHunterDerivedData at h
  simp only [hty, ne_eq, not_true_eq_false, if_false] at h
  have hst : prepareStats (_updateVaultHunterDataVersions a).system = prepareStats a.system := by
    unfold prepareStats
    rw [prepareStat_migrate, migrate_stats]
  rw [hst] at h
  split at h
  · cases h
  · next cs hcs =>
    refine ⟨cs, hcs, ?_⟩
    cases h
    rfl

theorem pass_ok_stats (a a1 : Actor) (hty : a.type = "vault hunter")
    (h : _prepareVaultHunterDerivedData a = .ok a1) :
    a1.system.stats = prepareStats a.system := by
  obtain ⟨cs, _, rfl⟩ := pass_ok_shape a a1 hty h
  rfl

theorem pass_ok_stat (a a1 : Actor) (hty : a.type = "vault hunter")
    (h : _prepareVaultHunterDerivedData a = .ok a1) (key : String) :
    lookupKey key a1.system.stats = (lookupKey key a.system.stats).map (prepareStat a.system key) := by
  rw [pass_ok_stats a a1 hty h]
  exact lookupKey_map (prepareStat a.system) key a.system.stats

theorem prepareChecks_lookup (sys : ActorSystem) :
    ∀ (l r : List (String × Check)), prepareChecks sys l = .ok r →
      ∀ (k : String) (c1 : Check), lookupKey k r = some c1 →
        ∃ c0, lookupKey k l = some c0 ∧ prepareCheck sys k c0 = .ok c1 := by
  intro l
  induction l with
  | nil =>
    intro r h k c1 hk
    simp [prepareChecks] at h
    subst h
    simp [lookupKey] at hk
  | cons e rest ih =>
    intro r h k c1 hk
    obtain ⟨k', c⟩ := e
    simp only [prepareChecks] at h
    split at h
    · cases h
    · next c' hc' =>
      split at h
      · cases h
      · next rest' hrest =>
        cases h
        by_cases hkk : k' = k
        · subst hkk
          simp only [lookupKey, if_true, Option.some.injEq] at hk ⊢
          subst hk
          exact ⟨c, rfl, hc'⟩
        · simp only [lookupKey, hkk, if_false] at hk ⊢
          exact ih rest' hrest k c1 hk

theorem pass_ok_check (a a1 : Actor) (hty : a.type = "vault hunter")
    (h : _prepareVaultHunterDerivedData a = .ok a1) (k : String) (c1 : Check)
    (hk : lookupKey k a1.system.checks = some c1) :
    ∃ c0, lookupKey k (_updateVaultHunterDataVersions a).system.checks = some c0 ∧
      prepareCheck a1.system k c0 = .ok c1 := by
  obtain ⟨cs, hcs, rfl⟩ := pass_ok_shape a a1 hty h
  obtain ⟨c0, h0, h1⟩ := prepareChecks_lookup _ _ _ hcs k c1 hk
  exact ⟨c0, h0, h1⟩

/-- What a completed `prepareCheck` wrote, and what it left alone. -/
theorem prepareCheck_ok (sys : ActorSystem) (k : String) (c0 c1 : Check)
    (h : prepareCheck sys k c0 = .ok c1) :
    ∃ st, lookupKey c0.stat sys.stats = some st ∧
      checkEffects sys.bonus k = .ok c1.effects ∧
      c1.value = st.modToUse ∧
      c1.total =
        ((((if c0.usesBadassRank.truthy then sys.attributes.badass.rank else .num 0).add
            (c0.base.orElse (.num 0))).add st.modToUse).add c0.misc).add c1.effects ∧
      c1.stat = c0.stat ∧ c1.misc = c0.misc ∧ c1.usesBadassRank = c0.usesBadassRank ∧
      c1.base = c0.base := by
  unfold prepareCheck at h
  split at h
  · cases h
  · next st hst =>
    split at h
    · cases h
    · next eff heff =>
      cases h
      exact ⟨st, hst, heff, rfl, rfl, rfl, rfl, rfl, rfl⟩

theorem pass_ok_frame (a a1 : Actor) (hty : a.type = "vault hunter")
    (h : _prepareVaultHunterDerivedData a = .ok a1) :
    a1.type = a.type ∧ a1.system.bonus = a.system.bonus ∧
      a1.system.attributes = a.system.attributes := by
  obtain ⟨cs, _, rfl⟩ := pass_ok_shape a a1 hty h
  exact ⟨migrate_type a, migrate_bonus a, migrate_attributes a⟩

/-! ## Stats -/

/-- The stat value the pass computes: the level-up bonus is read from the
mapping whenever the mapping exists. -/
theorem stat_value_computed (a a1 : Actor) (hty : a.type = "vault hunter")
    (h : _prepareVaultHunterDerivedData a = .ok a1) (key : String) (s0 : Stat)
    (hs : lookupKey key a.system.stats = some s0) :
    ∃ s1, lookupKey key a1.system.stats = some s1 ∧
      s1.value =
        ((((getNum a.system.archetypes.archetype1.baseStats key).add
            (getNum a.system.class_.baseStats key)).add s0.misc).add
          ((lookupKey key a.system.bonus.stats).getD { value := .num 0, mod := .num 0 }).value).add
          (match archetypeLevelUpStats a.system with
           | some m => getNum m key
           | none => .num 0) := by
  refine ⟨prepareStat a.system key s0, ?_, rfl⟩
  rw [pass_ok_stat a a1 hty h key, hs]
  rfl

/-- The computed stat value is the specified one whenever the level-up mapping
is absent or holds an entry for the key. -/
theorem stat_value_spec_of_entry (a a1 : Actor) (hty : a.type = "vault hunter")
    (h : _prepareVaultHunterDerivedData a = .ok a1) (key : String) (s0 : Stat)
    (hs : lookupKey key a.system.stats = some s0)
    (hlvl : ∀ m, archetypeLevelUpStats a.system = some m → (lookupKey key m).isSome) :
    ∃ s1, lookupKey key a1.system.stats = some s1 ∧
      s1.value = specStatValue a.system key s0.misc := by
  obtain ⟨s1, h1, hv⟩ := stat_value_computed a a1 hty h key s0 hs
  refine ⟨s1, h1, ?_⟩
  rw [hv]
  unfold specStatValue
  cases hm : archetypeLevelUpStats a.system with
  | none => rfl
  | some m =>
    have := hlvl m hm
    cases hk : lookupKey key m with
    | none => simp [hk] at this
    | some v => simp [getNum, hk]

/-- C1, at the failing input: for the vault hunter `partialLevelUpHunter`, whose
level-up bonuses hold an entry for `dmg` but none for `acc`, the pass completes
and leaves `NaN` as the value of the stat `acc`, where the specified value
(archetype 2 + class 1 + misc 1 + effects 1 + level-up bonus 0) is 5. -/
theorem stat_value_nan_when_levelup_entry_missing :
    (∃ a1 s1, _prepareVaultHunterDerivedData partialLevelUpHunter = .ok a1 ∧
      lookupKey "acc" a1.system.stats = some s1 ∧ s1.value = .nan) ∧
    specStatValue partialLevelUpHunter.system "acc" (.num 1) = .num 5 := by
  exact ⟨⟨_, _, rfl, rfl, rfl⟩, by decide⟩

/-- C2: after the derived-data pass of a vault hunter, the mod of every stat is
`Math.floor(value / 2) + (modBonus ?? 0) + effects.mod` for the value just
computed, the effects being `bonus.stats[key]` or `{ value: 0, mod: 0 }`; on a
numeric value `v` the floor term is the mathematical floor of `v / 2`, which
for an odd negative `v` is `(v - 1) / 2`. -/
theorem stat_mod_formula (a a1 : Actor) (hty : a.type = "vault hunter")
    (h : _prepareVaultHunterDerivedData a = .ok a1) (key : String) (s0 : Stat)
    (hs : lookupKey key a.system.stats = some s0) :
    ∃ s1, lookupKey key a1.system.stats = some s1 ∧
      s1.modBonus = s0.modBonus ∧
      s1.effects = some ((lookupKey key a.system.bonus.stats).getD
        { value := .num 0, mod := .num 0 }) ∧
      s1.mod = (s1.value.floorHalf.add (s1.modBonus.orElse (.num 0))).add
        ((lookupKey key a.system.bonus.stats).getD { value := .num 0, mod := .num 0 }).mod ∧
      (∀ v : Int, s1.value = .num v →
        s1.value.floorHalf = .num ⌊(v : ℚ) / 2⌋ ∧
        (v < 0 → v % 2 = 1 → s1.value.floorHalf = .num ((v - 1) / 2))) := by
  refine ⟨prepareStat a.system key s0, ?_, rfl, rfl, rfl, ?_⟩
  · rw [pass_ok_stat a a1 hty h key, hs]
    rfl
  · intro v hv
    rw [hv]
    have hfl : Int.fdiv v 2 = ⌊(v : ℚ) / 2⌋ := by
      rw [Int.fdiv_eq_ediv v (by decide)]
      exact (Rat.floor_intCast_div_natCast v 2).symm
    refine ⟨?_, ?_⟩
    · show JSVal.num (Int.fdiv v 2) = _
      rw [hfl]
    · intro _ hodd
      show JSVal.num (Int.fdiv v 2) = _
      rw [Int.fdiv_eq_ediv v (by decide)]
      congr 1
      omega

/-- C2, on the stat `dmg` of `sampleHunter`: value -3, mod -2 + 1 + 0 = -1. -/
theorem stat_mod_formula_witness :
    ∃ s1, lookupKey "dmg" sampleHunterPrepared.system.stats = some s1 ∧
      s1.modBonus = .num 1 ∧
      s1.effects = some ((lookupKey "dmg" sampleHunter.system.bonus.stats).getD
        { value := .num 0, mod := .num 0 }) ∧
      s1.mod = (s1.value.floorHalf.add (s1.modBonus.orElse (.num 0))).add
        ((lookupKey "dmg" sampleHunter.system.bonus.stats).getD
          { value := .num 0, mod := .num 0 }).mod ∧
      (∀ v : Int, s1.value = .num v →
        s1.value.floorHalf = .num ⌊(v : ℚ) / 2⌋ ∧
        (v < 0 → v % 2 = 1 → s1.value.floorHalf = .num ((v - 1) / 2))) :=
  stat_mod_formula sampleHunter sampleHunterPrepared (by decide) rfl "dmg"
    (freshStat (.num 0) (.num 1)) (by decide)

/-- C3: after the derived-data pass of a vault hunter, the modToUse of every
stat is the stat's value when `attributes.badass.rollsEnabled` is on and the
stat's mod when it is off. -/
theorem stat_modToUse (a a1 : Actor) (hty : a.type = "vault hunter")
    (h : _prepareVaultHunterDerivedData a = .ok a1) (key : String) (s1 : Stat)
    (hs : lookupKey key a1.system.stats = some s1) :
    a1.system.attributes.badass.rollsEnabled = a.system.attributes.badass.rollsEnabled ∧
    (a.system.attributes.badass.rollsEnabled.truthy = true → s1.modToUse = s1.value) ∧
    (a.system.attributes.badass.rollsEnabled.truthy = false → s1.modToUse = s1.mod) := by
  have hattr : a1.system.attributes = a.system.attributes := by
    obtain ⟨cs, _, rfl⟩ := pass_ok_shape a a1 hty h
    exact migrate_attributes a
  rw [pass_ok_stat a a1 hty h key] at hs
  cases h0 : lookupKey key a.system.stats with
  | none => simp [h0] at hs
  | some s0 =>
    simp only [h0, Option.map_some', Option.some.injEq] at hs
    subst hs
    refine ⟨by rw [hattr], ?_, ?_⟩
    · intro ht
      simp [prepareStat, ht]
    · intro ht
      simp [prepareStat, ht]

/-- C3, on the stat `acc` of `sampleHunter`, whose toggle is off. -/
theorem stat_modToUse_witness :
    sampleHunterPrepared.system.attributes.badass.rollsEnabled =
      sampleHunter.system.attributes.badass.rollsEnabled ∧
    (sampleHunter.system.attributes.badass.rollsEnabled.truthy = true →
      (Stat.mk (.num 1) .undefined (some { value := .num 1, mod := .num 1 })
        (.num 6) (.num 4) (.num 4)).modToUse = .num 6) ∧
    (sampleHunter.system.attributes.badass.rollsEnabled.truthy = false →
      (Stat.mk (.num 1) .undefined (some { value := .num 1, mod := .num 1 })
        (.num 6) (.num 4) (.num 4)).modToUse = .num 4) :=
  stat_modToUse sampleHunter sampleHunterPrepared (by decide) rfl "acc" _ (by decide)

/-! ## Checks -/

/-- C4: after the derived-data pass of a vault hunter, for every check `c`: if
`bonus.checks[c]` exists (is neither `null` nor `undefined`; 0 counts as
existing) the check's effects are exactly that value, whatever `bonus.combat`
holds; otherwise, if `bonus.combat[c]` exists, the effects are
`bonus.combat[c].acc + bonus.combat.attack.acc`; otherwise they are 0. -/
theorem check_effects (a a1 : Actor) (hty : a.type = "vault hunter")
    (h : _prepareVaultHunterDerivedData a = .ok a1) (c : String) (cd1 : Check)
    (hc : lookupKey c a1.system.checks = some cd1) :
    (∀ v, lookupKey c a.system.bonus.checks = some v → v.isNullish = false →
      cd1.effects = v ∧
      ∀ combat, checkEffects { a.system.bonus with combat := combat } c = .ok v) ∧
    ((getNum a.system.bonus.checks c).isNullish = true →
      (∀ cb, lookupKey c a.system.bonus.combat = some cb →
        ∃ attack, lookupKey "attack" a.system.bonus.combat = some attack ∧
          cd1.effects = cb.acc.add attack.acc) ∧
      (lookupKey c a.system.bonus.combat = none → cd1.effects = .num 0)) := by
  obtain ⟨c0, _, hp⟩ := pass_ok_check a a1 hty h c cd1 hc
  obtain ⟨st, _, heff, _⟩ := prepareCheck_ok a1.system c c0 cd1 hp
  rw [(pass_ok_frame a a1 hty h).2.1] at heff
  refine ⟨?_, ?_⟩
  · intro v hv hnn
    have hg : getNum a.system.bonus.checks c = v := by simp [getNum, hv]
    refine ⟨?_, ?_⟩
    · simp only [checkEffects, hg, hnn, if_true] at heff
      exact (Except.ok.inj heff).symm
    · intro combat
      simp [checkEffects, hg, hnn]
  · intro hn
    simp only [checkEffects, hn, Bool.true_eq_false, if_false] at heff
    refine ⟨?_, ?_⟩
    · intro cb hcb
      rw [hcb] at heff
      cases hatt : lookupKey "attack" a.system.bonus.combat with
      | none => simp [hatt] at heff
      | some attack =>
        simp only [hatt] at heff
        exact ⟨attack, rfl, (Except.ok.inj heff).symm⟩
    · intro hnone
      rw [hnone] at heff
      exact (Except.ok.inj heff).symm

/-- C4, on `sampleHunter`: the check `shooting` has no direct bonus and takes
2 + 1 from `bonus.combat`. -/
theorem check_effects_witness :
    (∀ v, lookupKey "shooting" sampleHunter.system.bonus.checks = some v →
      v.isNullish = false →
      JSVal.num 3 = v ∧
      ∀ combat, checkEffects { sampleHunter.system.bonus with combat := combat } "shooting"
        = .ok v) ∧
    ((getNum sampleHunter.system.bonus.checks "shooting").isNullish = true →
      (∀ cb, lookupKey "shooting" sampleHunter.system.bonus.combat = some cb →
        ∃ attack, lookupKey "attack" sampleHunter.system.bonus.combat = some attack ∧
          JSVal.num 3 = cb.acc.add attack.acc) ∧
      (lookupKey "shooting" sampleHunter.system.bonus.combat = none →
        JSVal.num 3 = .num 0)) :=
  check_effects sampleHunter sampleHunterPrepared (by decide) rfl "shooting"
    { stat := "acc", value := .num 4, misc := .num 1, effects := .num 3,
      total := .num 11, usesBadassRank := .bool true, base := .undefined } (by decide)

/-- C5: after the derived-data pass of a vault hunter, the value of every check
is the modToUse the same pass left in the stat the check names, and its total
is `(usesBadassRank ? badass.rank : 0) + (base ?? 0) + value + misc + effects`;
when these five summands are 0 the total is 0. -/
theorem check_value_total (a a1 : Actor) (hty : a.type = "vault hunter")
    (h : _prepareVaultHunterDerivedData a = .ok a1) (c : String) (cd1 : Check)
    (hc : lookupKey c a1.system.checks = some cd1) :
    ∃ st1, lookupKey cd1.stat a1.system.stats = some st1 ∧
      cd1.value = st1.modToUse ∧
      cd1.total =
        ((((if cd1.usesBadassRank.truthy then a.system.attributes.badass.rank
            else .num 0).add (cd1.base.orElse (.num 0))).add cd1.value).add cd1.misc).add
          cd1.effects ∧
      ((if cd1.usesBadassRank.truthy then a.system.attributes.badass.rank else .num 0)
          = .num 0 →
        cd1.base.orElse (.num 0) = .num 0 → cd1.value = .num 0 → cd1.misc = .num 0 →
        cd1.effects = .num 0 → cd1.total = .num 0) := by
  obtain ⟨c0, _, hp⟩ := pass_ok_check a a1 hty h c cd1 hc
  obtain ⟨st, hst, _, hval, htot, hstat, hmisc, hrank, hbase⟩ :=
    prepareCheck_ok a1.system c c0 cd1 hp
  rw [(pass_ok_frame a a1 hty h).2.2, ← hrank, ← hbase, ← hmisc, ← hval] at htot
  rw [← hstat] at hst
  refine ⟨st, hst, hval, htot, ?_⟩
  intro h1 h2 h3 h4 h5
  rw [htot, h1, h2, h3, h4, h5]
  rfl

/-- C5, on the check `shooting` of `sampleHunter`: 3 + 0 + 4 + 1 + 3 = 11. -/
theorem check_value_total_witness :
    ∃ st1, lookupKey "acc" sampleHunterPrepared.system.stats = some st1 ∧
      JSVal.num 4 = st1.modToUse ∧
      JSVal.num 11 =
        ((((if (JSVal.bool true).truthy then sampleHunter.system.attributes.badass.rank
            else .num 0).add (JSVal.undefined.orElse (.num 0))).add (.num 4)).add
          (.num 1)).add (.num 3) ∧
      ((if (JSVal.bool true).truthy then sampleHunter.system.attributes.badass.rank
          else .num 0) = .num 0 →
        JSVal.undefined.orElse (.num 0) = .num 0 → JSVal.num 4 = .num 0 →
        JSVal.num 1 = .num 0 → JSVal.num 3 = .num 0 → JSVal.num 11 = .num 0) :=
  check_value_total sampleHunter sampleHunterPrepared (by decide) rfl "shooting"
    { stat := "acc", value := .num 4, misc := .num 1, effects := .num 3,
      total := .num 11, usesBadassRank := .bool true, base := .undefined } (by decide)

/-! ## The pass as a function of the source fields -/

theorem migrate_eq (a : Actor) (hty : a.type = "vault hunter") :
    _updateVaultHunterDataVersions a =
      { a with
        system := { a.system with checks := migratedChecks a.system.checks }
        updateCalls := migratedCalls a } := by
  unfold _updateVaultHunterDataVersions migratedChecks migratedCalls
  rw [if_neg (not_not.mpr hty)]
  split <;> rfl

theorem prepareCheck_congr (sys sys' : ActorSystem) (hs : sys'.stats = sys.stats)
    (hb : sys'.bonus = sys.bonus) (ha : sys'.attributes = sys.attributes) :
    prepareCheck sys' = prepareCheck sys := by
  funext k c
  unfold prepareCheck
  rw [hs, hb, ha]

theorem prepareChecks_congr (sys sys' : ActorSystem) (hs : sys'.stats = sys.stats)
    (hb : sys'.bonus = sys.bonus) (ha : sys'.attributes = sys.attributes)
    (l : List (String × Check)) : prepareChecks sys' l = prepareChecks sys l := by
  induction l with
  | nil => rfl
  | cons e rest ih =>
    obtain ⟨k, c⟩ := e
    simp only [prepareChecks, ih, prepareCheck_congr sys sys' hs hb ha]

/-- The pass on a vault hunter, written out. -/
theorem pass_eq (a : Actor) (hty : a.type = "vault hunter") :
    _prepareVaultHunterDerivedData a =
      match prepareChecks { a.system with stats := prepareStats a.system }
          (migratedChecks a.system.checks) with
      | .error e => .error e
      | .ok cs =>
        .ok { type := a.type
              updateCalls := migratedCalls a
              system := { a.system with stats := prepareStats a.system, checks := cs } } := by
  unfold _prepareVaultHunterDerivedData
  rw [if_neg (not_not.mpr hty)]
  have hst : prepareStats (_updateVaultHunterDataVersions a).system = prepareStats a.system := by
    unfold prepareStats
    rw [prepareStat_migrate, migrate_stats]
  simp only [hst]
  rw [migrate_eq a hty]
  simp only
  rw [prepareChecks_congr { a.system with stats := prepareStats a.system }
    { a.system with checks := migratedChecks a.system.checks, stats := prepareStats a.system }
    rfl rfl rfl]

theorem prepareStat_clearDerived (sys : ActorSystem) (k : String) (s : Stat) :
    prepareStat sys k s.clearDerived = prepareStat sys k s := rfl

theorem prepareStat_idem (sys : ActorSystem) (k : String) (s : Stat) :
    prepareStat sys k (prepareStat sys k s) = prepareStat sys k s := rfl

theorem prepareStat_congr (sys sys' : ActorSystem) (h1 : sys'.archetypes = sys.archetypes)
    (h2 : sys'.archetypeLevelBonusTotals = sys.archetypeLevelBonusTotals)
    (h3 : sys'.class_ = sys.class_) (h4 : sys'.bonus = sys.bonus)
    (h5 : sys'.attributes = sys.attributes) : prepareStat sys' = prepareStat sys := by
  funext k s
  unfold prepareStat archetypeLevelUpStats
  rw [h1, h2, h3, h4, h5]

theorem prepareCheck_clearDerived (sys : ActorSystem) (k : String) (c : Check) :
    prepareCheck sys k c.clearDerived = prepareCheck sys k c := by
  unfold prepareCheck Check.clearDerived
  simp only

theorem prepareCheck_idem (sys : ActorSystem) (k : String) (c c1 : Check)
    (h : prepareCheck sys k c = .ok c1) : prepareCheck sys k c1 = .ok c1 := by
  unfold prepareCheck at h ⊢
  split at h
  · cases h
  · next st hst =>
    split at h
    · cases h
    · next eff heff =>
      cases h
      simp only [hst, heff]

theorem prepareChecks_clearDerived (sys : ActorSystem) (l : List (String × Check)) :
    prepareChecks sys (l.map (fun e => (e.1, e.2.clearDerived))) = prepareChecks sys l := by
  induction l with
  | nil => rfl
  | cons e rest ih =>
    obtain ⟨k, c⟩ := e
    simp only [List.map_cons, prepareChecks, ih, prepareCheck_clearDerived]

theorem prepareChecks_idem (sys : ActorSystem) :
    ∀ (l r : List (String × Check)), prepareChecks sys l = .ok r →
      prepareChecks sys r = .ok r := by
  intro l
  induction l with
  | nil =>
    intro r h
    simp [prepareChecks] at h
    subst h
    rfl
  | cons e rest ih =>
    intro r h
    obtain ⟨k, c⟩ := e
    simp only [prepareChecks] at h
    split at h
    · cases h
    · next c' hc' =>
      split at h
      · cases h
      · next rest' hrest =>
        cases h
        simp only [prepareChecks, prepareCheck_idem sys k c c' hc', ih rest' hrest]

theorem prepareChecks_keys (sys : ActorSystem) :
    ∀ (l r : List (String × Check)), prepareChecks sys l = .ok r →
      ∀ k, (lookupKey k r).isSome = (lookupKey k l).isSome := by
  intro l
  induction l with
  | nil =>
    intro r h k
    simp [prepareChecks] at h
    subst h
    rfl
  | cons e rest ih =>
    intro r h k
    obtain ⟨k', c⟩ := e
    simp only [prepareChecks] at h
    split at h
    · cases h
    · next c' hc' =>
      split at h
      · cases h
      · next rest' hrest =>
        cases h
        by_cases hkk : k' = k
        · simp [lookupKey, hkk]
        · simp [lookupKey, hkk, ih rest' hrest k]

theorem migratedChecks_throw (l : List (String × Check)) :
    (lookupKey "throw" (migratedChecks l)).isSome = true := by
  unfold migratedChecks
  split
  · next v hv => simp [hv]
  · next hv => simp [lookupKey_append, hv, lookupKey]

theorem migratedChecks_of_throw (l : List (String × Check))
    (h : (lookupKey "throw" l).isSome = true) : migratedChecks l = l := by
  unfold migratedChecks
  split
  · rfl
  · next hv => simp [hv] at h

theorem migratedCalls_of_throw (a : Actor)
    (h : (lookupKey "throw" a.system.checks).isSome = true) :
    migratedCalls a = a.updateCalls := by
  unfold migratedCalls
  split
  · rfl
  · next hv => simp [hv] at h

/-- A completed pass is a fixed point of the pass. -/
theorem pass_idem (a a1 : Actor) (hty : a.type = "vault hunter")
    (h : _prepareVaultHunterDerivedData a = .ok a1) :
    _prepareVaultHunterDerivedData a1 = .ok a1 := by
  rw [pass_eq a hty] at h
  split at h
  · cases h
  · next cs hcs =>
    cases h
    have hthrow : (lookupKey "throw" cs).isSome = true := by
      rw [prepareChecks_keys _ _ _ hcs "throw"]
      exact migratedChecks_throw _
    have hstats : prepareStats
        { a.system with stats := prepareStats a.system, checks := cs } = prepareStats a.system := by
      unfold prepareStats
      simp only [List.map_map]
      rfl
    rw [pass_eq { type := a.type, updateCalls := migratedCalls a,
                  system := { a.system with stats := prepareStats a.system, checks := cs } } hty]
    simp only [hstats, migratedChecks_of_throw cs hthrow]
    rw [prepareChecks_congr { a.system with stats := prepareStats a.system }
      { a.system with stats := prepareStats a.system, checks := cs } rfl rfl rfl,
      prepareChecks_idem _ _ _ hcs]
    simp only
    rw [migratedCalls_of_throw _ hthrow]

theorem prepareChecks_append (sys : ActorSystem) (l r : List (String × Check)) :
    prepareChecks sys (l ++ r) =
      match prepareChecks sys l with
      | .error e => .error e
      | .ok l' =>
        match prepareChecks sys r with
        | .error e => .error e
        | .ok r' => .ok (l' ++ r') := by
  induction l with
  | nil =>
    simp only [List.nil_append, prepareChecks]
    split <;> simp_all
  | cons e rest ih =>
    obtain ⟨k, c⟩ := e
    have h1 : prepareChecks sys ((k, c) :: rest ++ r) =
        match prepareCheck sys k c with
        | .error e => .error e
        | .ok c' =>
          match prepareChecks sys (rest ++ r) with
          | .error e => .error e
          | .ok rest' => .ok ((k, c') :: rest') := rfl
    have h2 : prepareChecks sys ((k, c) :: rest) =
        match prepareCheck sys k c with
        | .error e => .error e
        | .ok c' =>
          match prepareChecks sys rest with
          | .error e => .error e
          | .ok rest' => .ok ((k, c') :: rest') := rfl
    rw [h1, h2, ih]
    cases prepareCheck sys k c with
    | error e => rfl
    | ok c' =>
      cases prepareChecks sys rest with
      | error e => rfl
      | ok rest' =>
        cases prepareChecks sys r with
        | error e => rfl
        | ok r' => rfl

theorem prepareChecks_migrated_clearDerived (sys : ActorSystem) (l : List (String × Check)) :
    prepareChecks sys (migratedChecks (l.map (fun e => (e.1, e.2.clearDerived)))) =
      prepareChecks sys (migratedChecks l) := by
  unfold migratedChecks
  rw [lookupKey_map (fun _ c => Check.clearDerived c) "throw" l]
  cases lookupKey "throw" l with
  | some v => exact prepareChecks_clearDerived sys l
  | none =>
    simp only [Option.map_none']
    rw [prepareChecks_append, prepareChecks_append, prepareChecks_clearDerived]

theorem migratedCalls_clearDerived (a : Actor) :
    migratedCalls a.clearDerived = migratedCalls a := by
  unfold migratedCalls Actor.clearDerived
  simp only
  rw [lookupKey_map (fun _ c => Check.clearDerived c) "throw" a.system.checks]
  cases lookupKey "throw" a.system.checks <;> rfl

theorem prepareStats_clearDerived (a : Actor) :
    prepareStats a.clearDerived.system = prepareStats a.system := by
  unfold prepareStats Actor.clearDerived
  simp only [List.map_map]
  rfl

/-- The pass reads the source fields only: blanking the derived fields
beforehand does not change its outcome. -/
theorem pass_clearDerived (a : Actor) (hty : a.type = "vault hunter") :
    _prepareVaultHunterDerivedData a.clearDerived = _prepareVaultHunterDerivedData a := by
  have hty' : a.clearDerived.type = "vault hunter" := hty
  rw [pass_eq a hty, pass_eq a.clearDerived hty', prepareStats_clearDerived,
    migratedCalls_clearDerived]
  have hc := prepareChecks_migrated_clearDerived
    { a.system with stats := prepareStats a.system } a.system.checks
  rw [← prepareChecks_congr { a.system with stats := prepareStats a.system }
    { a.clearDerived.system with stats := prepareStats a.system } rfl rfl rfl] at hc
  have hch : a.clearDerived.system.checks =
      a.system.checks.map (fun e => (e.1, e.2.clearDerived)) := rfl
  rw [hch, hc]
  rfl

/-! ## When the pass completes -/

theorem checkEffects_completes_iff (bonus : Bonus) (k : String) :
    (∃ v, checkEffects bonus k = .ok v) ↔
      (!(getNum bonus.checks k).isNullish || (lookupKey k bonus.combat).isNone ||
        (lookupKey "attack" bonus.combat).isSome) = true := by
  unfold checkEffects
  cases hn : (getNum bonus.checks k).isNullish with
  | false => simp
  | true =>
    cases hc : lookupKey k bonus.combat with
    | none => simp
    | some cb =>
      cases ha : lookupKey "attack" bonus.combat with
      | none => simp
      | some attack => simp

theorem prepareCheck_completes_iff (sys : ActorSystem) (k : String) (c : Check) :
    (∃ c1, prepareCheck sys k c = .ok c1) ↔ checkResolves sys k c = true := by
  unfold checkResolves
  rw [Bool.and_eq_true, ← checkEffects_completes_iff]
  unfold prepareCheck
  cases hst : lookupKey c.stat sys.stats with
  | none => simp
  | some st =>
    cases heff : checkEffects sys.bonus k with
    | error e => simp
    | ok v => simp

theorem prepareChecks_completes_iff (sys : ActorSystem) (l : List (String × Check)) :
    (∃ r, prepareChecks sys l = .ok r) ↔ ∀ e ∈ l, checkResolves sys e.1 e.2 = true := by
  induction l with
  | nil => simp [prepareChecks]
  | cons e rest ih =>
    obtain ⟨k, c⟩ := e
    have hstep : prepareChecks sys ((k, c) :: rest) =
        match prepareCheck sys k c with
        | .error e => .error e
        | .ok c' =>
          match prepareChecks sys rest with
          | .error e => .error e
          | .ok rest' => .ok ((k, c') :: rest') := rfl
    rw [hstep]
    simp only [List.mem_cons, forall_eq_or_imp]
    rw [← ih, ← prepareCheck_completes_iff]
    cases prepareCheck sys k c with
    | error e => simp
    | ok c1 =>
      cases prepareChecks sys rest with
      | error e => simp
      | ok r => simp

theorem checkResolves_prepared (sys : ActorSystem) (k : String) (c : Check) :
    checkResolves { sys with stats := prepareStats sys } k c = checkResolves sys k c := by
  unfold checkResolves prepareStats
  simp only
  rw [lookupKey_map (prepareStat sys) c.stat sys.stats, Option.isSome_map']

/-- The derived-data pass of a vault hunter completes exactly when every check,
the migrated `throw` included, names an existing stat and finds
`bonus.combat.attack` where it reads the combat bonus. -/
theorem pass_completes_iff (a : Actor) (hty : a.type = "vault hunter") :
    (∃ a1, _prepareVaultHunterDerivedData a = .ok a1) ↔
      ∀ e ∈ migratedChecks a.system.checks, checkResolves a.system e.1 e.2 = true := by
  rw [pass_eq a hty]
  have hiff := prepareChecks_completes_iff { a.system with stats := prepareStats a.system }
    (migratedChecks a.system.checks)
  simp only [checkResolves_prepared] at hiff
  rw [← hiff]
  cases prepareChecks { a.system with stats := prepareStats a.system }
      (migratedChecks a.system.checks) with
  | error e => simp
  | ok cs => simp

/-- A completed pass keeps the check keys of the migrated actor. -/
theorem pass_ok_check_keys (a a1 : Actor) (hty : a.type = "vault hunter")
    (h : _prepareVaultHunterDerivedData a = .ok a1) (k : String) :
    (lookupKey k a1.system.checks).isSome =
      (lookupKey k (migratedChecks a.system.checks)).isSome := by
  rw [pass_eq a hty] at h
  split at h
  · cases h
  · next cs hcs =>
    cases h
    exact prepareChecks_keys _ _ _ hcs k

/-! ## Migration and recomputation -/

/-- C6: for a vault hunter without a `throw` check, two derived-data passes in
a row issue exactly one `this.update` call in total (the first pass issues it,
the second pass completes and issues none), and the `throw` check after the
second pass is the one after the first pass. -/
theorem migration_update_once (a a1 : Actor) (hty : a.type = "vault hunter")
    (hno : lookupKey "throw" a.system.checks = none)
    (h1 : _prepareVaultHunterDerivedData a = .ok a1) :
    a1.updateCalls = a.updateCalls ++ [[("system.checks.throw", throwDefault)]] ∧
    ∃ a2, _prepareVaultHunterDerivedData a1 = .ok a2 ∧
      a2.updateCalls = a.updateCalls ++ [[("system.checks.throw", throwDefault)]] ∧
      ∃ t, lookupKey "throw" a1.system.checks = some t ∧
        lookupKey "throw" a2.system.checks = some t := by
  have hidem := pass_idem a a1 hty h1
  rw [pass_eq a hty] at h1
  split at h1
  · cases h1
  · next cs hcs =>
    cases h1
    have hcalls : migratedCalls a =
        a.updateCalls ++ [[("system.checks.throw", throwDefault)]] := by
      unfold migratedCalls
      rw [hno]
    have hthrow : (lookupKey "throw" cs).isSome = true := by
      rw [prepareChecks_keys _ _ _ hcs "throw"]
      exact migratedChecks_throw _
    obtain ⟨t, ht⟩ := Option.isSome_iff_exists.mp hthrow
    exact ⟨hcalls, _, hidem, hcalls, t, ht, ht⟩

/-- C6, on `sampleHunter`, which has no `throw` check and an empty update log. -/
theorem migration_update_once_witness :
    sampleHunterPrepared.updateCalls =
      sampleHunter.updateCalls ++ [[("system.checks.throw", throwDefault)]] ∧
    ∃ a2, _prepareVaultHunterDerivedData sampleHunterPrepared = .ok a2 ∧
      a2.updateCalls = sampleHunter.updateCalls ++ [[("system.checks.throw", throwDefault)]] ∧
      ∃ t, lookupKey "throw" sampleHunterPrepared.system.checks = some t ∧
        lookupKey "throw" a2.system.checks = some t :=
  migration_update_once sampleHunter sampleHunterPrepared (by decide) (by decide) rfl

/-- C7: `_updateVaultHunterDataVersions` on a vault hunter without a `throw`
check adds the check `{ stat: "acc", value: 0, misc: 0 }` under `throw`, leaves
the rest of the actor data alone and issues one update, whose only key is
`system.checks.throw` and whose value is that default; on a vault hunter with a
`throw` check, and on an actor of any other type, it changes nothing and issues
no update. -/
theorem migration_step (a : Actor) :
    (a.type = "vault hunter" → lookupKey "throw" a.system.checks = none →
      lookupKey "throw" (_updateVaultHunterDataVersions a).system.checks = some throwDefault ∧
      (throwDefault.stat = "acc" ∧ throwDefault.value = .num 0 ∧ throwDefault.misc = .num 0) ∧
      (_updateVaultHunterDataVersions a).system =
        { a.system with checks := a.system.checks ++ [("throw", throwDefault)] } ∧
      (_updateVaultHunterDataVersions a).type = a.type ∧
      (_updateVaultHunterDataVersions a).updateCalls =
        a.updateCalls ++ [[("system.checks.throw", throwDefault)]]) ∧
    (a.type = "vault hunter" → (lookupKey "throw" a.system.checks).isSome = true →
      _updateVaultHunterDataVersions a = a) ∧
    (a.type ≠ "vault hunter" → _updateVaultHunterDataVersions a = a) := by
  refine ⟨?_, ?_, ?_⟩
  · intro hty hno
    rw [migrate_eq a hty]
    unfold migratedChecks migratedCalls
    rw [hno]
    refine ⟨?_, ⟨rfl, rfl, rfl⟩, rfl, rfl, rfl⟩
    simp [lookupKey_append, hno, lookupKey]
  · intro hty hsome
    rw [migrate_eq a hty, migratedChecks_of_throw _ hsome, migratedCalls_of_throw _ hsome]
  · intro hty
    unfold _updateVaultHunterDataVersions
    rw [if_pos hty]

/-- C7, on `sampleHunter` (no `throw` check), on `sampleHunterPrepared` (a
`throw` check) and on `sampleNpc`. -/
theorem migration_step_witness :
    (lookupKey "throw" (_updateVaultHunterDataVersions sampleHunter).system.checks
        = some throwDefault ∧
      (throwDefault.stat = "acc" ∧ throwDefault.value = .num 0 ∧ throwDefault.misc = .num 0) ∧
      (_updateVaultHunterDataVersions sampleHunter).system =
        { sampleHunter.system with
          checks := sampleHunter.system.checks ++ [("throw", throwDefault)] } ∧
      (_updateVaultHunterDataVersions sampleHunter).type = sampleHunter.type ∧
      (_updateVaultHunterDataVersions sampleHunter).updateCalls =
        sampleHunter.updateCalls ++ [[("system.checks.throw", throwDefault)]]) ∧
    _updateVaultHunterDataVersions sampleHunterPrepared = sampleHunterPrepared ∧
    _updateVaultHunterDataVersions sampleNpc = sampleNpc :=
  ⟨(migration_step sampleHunter).1 (by decide) (by decide),
   (migration_step sampleHunterPrepared).2.1 (by decide) (by decide),
   (migration_step sampleNpc).2.2 (by decide)⟩

/-- C8: a completed derived-data pass of a vault hunter (with or without a
`throw` check beforehand) is a fixed point of the pass, so running the pass
twice leaves the state of running it once; and every actor with the same
source fields, whatever its derived fields held, ends in that same state. -/
theorem derived_data_recomputed (a a1 : Actor) (hty : a.type = "vault hunter")
    (h : _prepareVaultHunterDerivedData a = .ok a1) :
    _prepareVaultHunterDerivedData a1 = .ok a1 ∧
    ∀ b : Actor, b.clearDerived = a.clearDerived →
      _prepareVaultHunterDerivedData b = .ok a1 := by
  refine ⟨pass_idem a a1 hty h, ?_⟩
  intro b hb
  have htb : b.type = "vault hunter" := by
    have : b.clearDerived.type = a.clearDerived.type := by rw [hb]
    exact this.trans hty
  rw [← pass_clearDerived b htb, hb, pass_clearDerived a hty, h]

/-- C8, on `sampleHunterPrepared`, which has a `throw` check. -/
theorem derived_data_recomputed_witness :
    _prepareVaultHunterDerivedData sampleHunterPrepared = .ok sampleHunterPrepared ∧
    ∀ b : Actor, b.clearDerived = sampleHunterPrepared.clearDerived →
      _prepareVaultHunterDerivedData b = .ok sampleHunterPrepared :=
  derived_data_recomputed sampleHunterPrepared sampleHunterPrepared (by decide) rfl

/-! ## Lemmas on the roll-data mapping -/

theorem lookupKey_eq_none {β : Type} (k : String) (l : List (String × β))
    (h : k ∉ l.map Prod.fst) : lookupKey k l = none := by
  induction l with
  | nil => rfl
  | cons e rest ih =>
    obtain ⟨k', v⟩ := e
    simp only [List.map_cons, List.mem_cons, not_or] at h
    have hne : ¬ k' = k := fun hk => h.1 hk.symm
    simp only [lookupKey, hne, if_false]
    exact ih h.2

theorem lookupKey_mem_keys {β : Type} (k : String) (v : β) (l : List (String × β))
    (h : lookupKey k l = some v) : k ∈ l.map Prod.fst := by
  by_contra hk
  rw [lookupKey_eq_none k l hk] at h
  cases h

theorem lookupKey_setKey (data : RollData) (k : String) (v : RollValue) (k' : String) :
    lookupKey k' (setKey data k v) = if k = k' then some v else lookupKey k' data := by
  induction data with
  | nil => simp [setKey, lookupKey]
  | cons e rest ih =>
    obtain ⟨k0, v0⟩ := e
    by_cases h0 : k0 = k
    · subst h0
      by_cases h1 : k0 = k' <;> simp [setKey, lookupKey, h1]
    · by_cases h1 : k0 = k'
      · subst h1
        simp [setKey, lookupKey, h0, Ne.symm h0]
      · simp [setKey, lookupKey, h0, h1, ih]

/-- The loop `for (let [k, v] of entries) data[k] = deepClone(v)` over entries
with distinct keys: a key of the entries reads as its entry, any other key as before. -/
theorem lookupKey_foldl_setKey (es : List (String × RollValue)) :
    (es.map Prod.fst).Nodup → ∀ (data : RollData) (k : String),
      lookupKey k (es.foldl (fun d e => setKey d e.1 (deepClone e.2)) data) =
        (lookupKey k es).orElse (fun _ => lookupKey k data) := by
  induction es with
  | nil => intro _ data k; rfl
  | cons e rest ih =>
    intro hnd data k
    obtain ⟨k0, v0⟩ := e
    simp only [List.map_cons, List.nodup_cons] at hnd
    simp only [List.foldl_cons]
    rw [ih hnd.2, lookupKey_setKey]
    by_cases h0 : k0 = k
    · subst h0
      simp [lookupKey, lookupKey_eq_none k0 rest hnd.1, deepClone]
    · simp [lookupKey, h0]

theorem entries_of_falsy (v : RollValue) (h : v.truthy = false) : v.entries = [] := by
  cases v with
  | prim p => rfl
  | str s =>
    simp only [RollValue.truthy, decide_eq_false_iff_not, not_not] at h
    subst h
    rfl
  | obj fields => simp [RollValue.truthy] at h

theorem flattenInto_eq (data : RollData) (name : String) :
    flattenInto data name =
      (getTop data name).entries.foldl (fun d e => setKey d e.1 (deepClone e.2)) data := by
  unfold flattenInto
  split
  · rfl
  · next h =>
    rw [entries_of_falsy _ (by simpa using h)]
    rfl

theorem lookupKey_flattenInto (data : RollData) (name : String)
    (hnd : (subKeys data name).Nodup) (k : String) :
    lookupKey k (flattenInto data name) =
      (lookupKey k (getTop data name).entries).orElse (fun _ => lookupKey k data) := by
  rw [flattenInto_eq]
  exact lookupKey_foldl_setKey _ hnd data k

theorem getTop_flattenInto (data : RollData) (name : String)
    (hnd : (subKeys data name).Nodup) (k : String) (hk : k ∉ subKeys data name) :
    getTop (flattenInto data name) k = getTop data k := by
  unfold getTop
  rw [lookupKey_flattenInto data name hnd k, lookupKey_eq_none k _ hk]
  rfl

theorem addLevel_lookup (data data' : RollData) (h : addLevel data = .ok data')
    (k : String) (hk : k ≠ "lvl") : lookupKey k data' = lookupKey k data := by
  unfold addLevel at h
  split at h
  · cases h
  · next level _ =>
    split at h
    · split at h
      · cases h
      · next value _ =>
        cases h
        rw [lookupKey_setKey, if_neg (Ne.symm hk)]
    · cases h
      rfl

/-- The top level after the three flattening blocks, when no block overwrites a
sub-mapping that a later block reads: `hps` entries first, then `stats`
entries, then `abilities` entries, then what was there before. -/
theorem lookupKey_flattenAll (data : RollData)
    (hA : (subKeys data "abilities").Nodup) (hS : (subKeys data "stats").Nodup)
    (hH : (subKeys data "hps").Nodup)
    (hAS : "stats" ∉ subKeys data "abilities") (hAH : "hps" ∉ subKeys data "abilities")
    (hSH : "hps" ∉ subKeys data "stats") (k : String) :
    lookupKey k (flattenAll data) =
      (lookupKey k (getTop data "hps").entries).orElse (fun _ =>
        (lookupKey k (getTop data "stats").entries).orElse (fun _ =>
          (lookupKey k (getTop data "abilities").entries).orElse (fun _ =>
            lookupKey k data))) := by
  have h1 : getTop (flattenInto data "abilities") "stats" = getTop data "stats" :=
    getTop_flattenInto data "abilities" hA "stats" hAS
  have h2 : getTop (flattenInto data "abilities") "hps" = getTop data "hps" :=
    getTop_flattenInto data "abilities" hA "hps" hAH
  have hS1 : (subKeys (flattenInto data "abilities") "stats").Nodup := by
    unfold subKeys; rw [h1]; exact hS
  have hSH1 : "hps" ∉ subKeys (flattenInto data "abilities") "stats" := by
    unfold subKeys; rw [h1]; exact hSH
  have h3 : getTop (flattenInto (flattenInto data "abilities") "stats") "hps"
      = getTop data "hps" := by
    rw [getTop_flattenInto _ "stats" hS1 "hps" hSH1, h2]
  have hH2 : (subKeys (flattenInto (flattenInto data "abilities") "stats") "hps").Nodup := by
    unfold subKeys; rw [h3]; exact hH
  unfold flattenAll
  rw [lookupKey_flattenInto _ "hps" hH2 k, h3, lookupKey_flattenInto _ "stats" hS1 k, h1,
    lookupKey_flattenInto _ "abilities" hA k]

/-- The projection on a vault hunter completes exactly when the flattened
mapping has an `attributes` property that is neither `null` nor `undefined`. -/
theorem rollData_completes_iff (self : Actor) (hty : self.type = "vault hunter")
    (data : RollData) :
    (∃ data', _getVaultHunterRollData self data = .ok data') ↔
      (getTop (flattenAll data) "attributes").isNullish = false := by
  unfold _getVaultHunterRollData
  rw [if_neg (not_not.mpr hty)]
  unfold addLevel
  cases hattr : getTop (flattenAll data) "attributes" with
  | prim p => cases p <;> simp [RollValue.get, RollValue.isNullish, JSVal.isNullish,
      RollValue.truthy, JSVal.truthy]
  | str s => simp [RollValue.get, RollValue.isNullish, RollValue.truthy, JSVal.truthy]
  | obj fields =>
    simp only [RollValue.get, RollValue.isNullish, iff_true]
    cases hlevel : (lookupKey "level" fields).getD (.prim .undefined) with
    | prim p =>
      cases p with
      | bool b => cases b <;> simp [RollValue.get, RollValue.truthy, JSVal.truthy]
      | num n => by_cases hn : n = 0 <;> simp [RollValue.get, RollValue.truthy, JSVal.truthy, hn]
      | _ => simp [RollValue.get, RollValue.truthy, JSVal.truthy]
    | str s => by_cases hs : s = "" <;> simp [RollValue.get, RollValue.truthy, hs]
    | obj fs => simp [RollValue.get, RollValue.truthy]

/-! ## Roll data -/

/-- C9, amended: when no key occurs twice among the keys of `abilities`, `stats`
and `hps` taken together and none of these keys is `abilities`, `stats`, `hps`
or `lvl`, then after `_getVaultHunterRollData` on a vault hunter every key of
the three sub-mappings is present at the top level with the contents of its
nested entry, and the three sub-mappings are still present with their original
contents. -/
theorem roll_data_flattened (self : Actor) (hty : self.type = "vault hunter")
    (data data' : RollData) (h : _getVaultHunterRollData self data = .ok data')
    (hnd : (subKeys data "abilities" ++ subKeys data "stats" ++ subKeys data "hps").Nodup)
    (hres : ∀ k ∈ subKeys data "abilities" ++ subKeys data "stats" ++ subKeys data "hps",
      k ∉ ["abilities", "stats", "hps", "lvl"]) :
    (∀ name ∈ ["abilities", "stats", "hps"], ∀ k v,
      lookupKey k (getTop data name).entries = some v → lookupKey k data' = some v) ∧
    (∀ name ∈ ["abilities", "stats", "hps"], lookupKey name data' = lookupKey name data) := by
  unfold _getVaultHunterRollData at h
  rw [if_neg (not_not.mpr hty)] at h
  rw [List.nodup_append, List.nodup_append] at hnd
  obtain ⟨⟨hA, hS, hdAS⟩, hH, hdH⟩ := hnd
  have hrA : ∀ k ∈ subKeys data "abilities", k ∉ ["abilities", "stats", "hps", "lvl"] :=
    fun k hk => hres k (by simp [hk])
  have hrS : ∀ k ∈ subKeys data "stats", k ∉ ["abilities", "stats", "hps", "lvl"] :=
    fun k hk => hres k (by simp [hk])
  have hrH : ∀ k ∈ subKeys data "hps", k ∉ ["abilities", "stats", "hps", "lvl"] :=
    fun k hk => hres k (by simp [hk])
  have hAS : "stats" ∉ subKeys data "abilities" := fun hk => hrA _ hk (by simp)
  have hAH : "hps" ∉ subKeys data "abilities" := fun hk => hrA _ hk (by simp)
  have hSH : "hps" ∉ subKeys data "stats" := fun hk => hrS _ hk (by simp)
  have hflat := lookupKey_flattenAll data hA hS hH hAS hAH hSH
  refine ⟨?_, ?_⟩
  · intro name hname k v hkv
    have hmem : k ∈ subKeys data name := lookupKey_mem_keys k v _ hkv
    simp only [List.mem_cons, List.mem_singleton, List.not_mem_nil, or_false] at hname
    have hlvl : k ≠ "lvl" := by
      intro hk
      rcases hname with rfl | rfl | rfl
      · exact hrA k hmem (by simp [hk])
      · exact hrS k hmem (by simp [hk])
      · exact hrH k hmem (by simp [hk])
    rw [addLevel_lookup _ _ h k hlvl, hflat k]
    rcases hname with rfl | rfl | rfl
    · have hkS : k ∉ subKeys data "stats" := fun hk => hdAS hmem hk
      have hkH : k ∉ subKeys data "hps" := fun hk => hdH (by simp [hmem]) hk
      rw [lookupKey_eq_none k _ hkH, lookupKey_eq_none k _ hkS, hkv]
      rfl
    · have hkH : k ∉ subKeys data "hps" := fun hk => hdH (by simp [hmem]) hk
      rw [lookupKey_eq_none k _ hkH, hkv]
      rfl
    · rw [hkv]
      rfl
  · intro name hname
    have hn4 : name ∈ ["abilities", "stats", "hps", "lvl"] := by
      simp only [List.mem_cons, List.mem_singleton, List.not_mem_nil, or_false] at hname ⊢
      rcases hname with hn | hn | hn <;> simp [hn]
    have hA' : name ∉ subKeys data "abilities" := fun hk => hrA _ hk hn4
    have hS' : name ∉ subKeys data "stats" := fun hk => hrS _ hk hn4
    have hH' : name ∉ subKeys data "hps" := fun hk => hrH _ hk hn4
    have hlvl : name ≠ "lvl" := by
      simp only [List.mem_cons, List.mem_singleton, List.not_mem_nil, or_false] at hname
      rcases hname with rfl | rfl | rfl <;> decide
    rw [addLevel_lookup _ _ h name hlvl, hflat name, lookupKey_eq_none name _ hH',
      lookupKey_eq_none name _ hS', lookupKey_eq_none name _ hA']
    rfl

/-- C9, amended, on `sampleRollData`. -/
theorem roll_data_flattened_witness :
    (∀ name ∈ ["abilities", "stats", "hps"], ∀ k v,
      lookupKey k (getTop sampleRollData name).entries = some v →
        lookupKey k sampleRollDataResult = some v) ∧
    (∀ name ∈ ["abilities", "stats", "hps"],
      lookupKey name sampleRollDataResult = lookupKey name sampleRollData) :=
  roll_data_flattened sampleHunter (by decide) sampleRollData sampleRollDataResult rfl
    (by decide) (by decide)

/-- C9 as stated fails on three mappings.  With a key `acc` in both `abilities`
and `stats`, the top-level `acc` is the `stats` entry, not the `abilities`
entry; with a key `stats` in `abilities`, the nested `stats` sub-mapping is
overwritten; with a key `lvl` in `abilities` and a level present, the top-level
`lvl` is the level, not the `abilities` entry. -/
theorem roll_data_flattened_counterexample :
    (∃ data', _getVaultHunterRollData sampleHunter sharedKeyRollData = .ok data' ∧
      lookupKey "acc" (getTop sharedKeyRollData "abilities").entries
        = some (.prim (.num 1)) ∧
      lookupKey "acc" data' ≠ some (.prim (.num 1))) ∧
    (∃ data', _getVaultHunterRollData sampleHunter shadowingRollData = .ok data' ∧
      lookupKey "stats" data' ≠ lookupKey "stats" shadowingRollData) ∧
    (∃ data', _getVaultHunterRollData sampleHunter lvlKeyRollData = .ok data' ∧
      lookupKey "lvl" (getTop lvlKeyRollData "abilities").entries
        = some (.prim (.num 9)) ∧
      lookupKey "lvl" data' ≠ some (.prim (.num 9))) := by
  refine ⟨⟨_, rfl, rfl, ?_⟩, ⟨_, rfl, ?_⟩, ⟨_, rfl, rfl, ?_⟩⟩
  · show some (RollValue.prim (.num 2)) ≠ some (.prim (.num 1))
    simp
  · show some (RollValue.prim (.num 1)) ≠ some (.obj [("acc", .prim (.num 2))])
    simp
  · show some (RollValue.prim (.num 2)) ≠ some (.prim (.num 9))
    simp

/-- What the level block of `_getVaultHunterRollData` does on a vault hunter,
with `level` the property `attributes.level` of the mapping: when `level` is
truthy, `lvl` is `level.value` if that is neither `null` nor `undefined`, and 0
otherwise; when `level` is falsy (missing, or a falsy value such as 0), `lvl`
is not assigned, and the mapping is as the three flattening blocks left it. -/
theorem roll_data_lvl (self : Actor) (hty : self.type = "vault hunter")
    (data data' : RollData) (h : _getVaultHunterRollData self data = .ok data') :
    ∃ level, (getTop data' "attributes").get "level" = .ok level ∧
      (level.truthy = true →
        ∃ value, level.get "value" = .ok value ∧
          (value.isNullish = false → lookupKey "lvl" data' = some value) ∧
          (value.isNullish = true → lookupKey "lvl" data' = some (.prim (.num 0)))) ∧
      (level.truthy = false → data' = flattenAll data) := by
  unfold _getVaultHunterRollData at h
  rw [if_neg (not_not.mpr hty)] at h
  have hattr : getTop data' "attributes" = getTop (flattenAll data) "attributes" := by
    unfold getTop
    rw [addLevel_lookup _ _ h "attributes" (by decide)]
  unfold addLevel at h
  split at h
  · cases h
  · next level hlevel =>
    refine ⟨level, by rw [hattr]; exact hlevel, ?_, ?_⟩
    · intro ht
      rw [if_pos ht] at h
      split at h
      · cases h
      · next value hvalue =>
        cases h
        refine ⟨value, hvalue, ?_, ?_⟩
        · intro hn
          simp [lookupKey_setKey, RollValue.orElse, hn]
        · intro hn
          simp [lookupKey_setKey, RollValue.orElse, hn]
    · intro ht
      rw [if_neg (by simp [ht])] at h
      cases h
      rfl

/-- C10, at the failing input: on `noLevelRollData`, whose `attributes` hold
no `level`, the projection completes and leaves the mapping without a `lvl`
field, where the claim (and the comment `or fall back to 0` above the block)
gives `lvl` the value 0.  On `noLevelValueRollData`, whose level holds no
value, `lvl` is 0, and on `sampleRollData`, whose level is 2, `lvl` is 2, both
as claimed. -/
theorem roll_data_lvl_unset_without_level :
    (∃ data', _getVaultHunterRollData sampleHunter noLevelRollData = .ok data' ∧
      lookupKey "lvl" data' = none ∧
      lookupKey "lvl" data' ≠ some (.prim (.num 0))) ∧
    (∃ data', _getVaultHunterRollData sampleHunter noLevelValueRollData = .ok data' ∧
      lookupKey "lvl" data' = some (.prim (.num 0))) ∧
    (∃ data', _getVaultHunterRollData sampleHunter sampleRollData = .ok data' ∧
      lookupKey "lvl" data' = some (.prim (.num 2))) := by
  refine ⟨⟨_, rfl, rfl, ?_⟩, ⟨_, rfl, rfl⟩, ⟨_, rfl, rfl⟩⟩
  show (none : Option RollValue) ≠ some (.prim (.num 0))
  simp

/-! ## The flat bonus-damage total of the melee chat card -/

/-- The computed total is the specified one whenever the truthiness of the
`crits` attribute agrees with its count being positive, that is, unless
`crits` is a non-empty string that reads as 0 or less or as `NaN`. -/
theorem levelUpDamage_eq_spec (actorSystem : ActorSystem) (dataSet : DataSet)
    (h : attrTruthy dataSet.crits = (attrOrZero dataSet.crits).gtZero) :
    levelUpDamage actorSystem dataSet = specLevelUpDamage actorSystem dataSet := by
  unfold levelUpDamage specLevelUpDamage ifAnyCritBonus
  simp only [h]
  generalize bonusOrZero (archetypeBonusDamages actorSystem) BonusDamage.anyAttack = a
  generalize bonusOrZero (archetypeBonusDamages actorSystem) BonusDamage.shootingAttack = b
  generalize bonusOrZero (archetypeBonusDamages actorSystem) BonusDamage.meleeAttack = c
  generalize bonusOrZero (archetypeBonusDamages actorSystem) BonusDamage.grenade = d
  have h0 : ∀ x y : JSVal, ((JSVal.num 0).add x).add y = x.add y := by
    intro x y
    unfold JSVal.add
    cases x.toNumber <;> cases y.toNumber <;> simp [JSVal.toNumber]
  have h1 : ∀ x y : JSVal, (x.add y).add (.num 0) = x.add y := by
    intro x y
    unfold JSVal.add
    cases x.toNumber <;> cases y.toNumber <;> simp [JSVal.toNumber]
  have h2 : ∀ x y : JSVal, ((x.add (.num 0)).add y) = x.add y := by
    intro x y
    unfold JSVal.add
    cases x.toNumber <;> cases y.toNumber <;> simp [JSVal.toNumber]
  by_cases hs : dataSet.attackType = some "shooting"
  · simp [hs, h0, h1]
  · by_cases hm : dataSet.attackType = some "melee"
    · simp [hm, h0, h1, h2]
    · by_cases hg : dataSet.attackType = some "grenade"
      · simp [hg, h0, h2]
      · simp [hs, hm, hg, h0, h1]

/-- C11, at the failing input: in the melee scenario (melee attack, 2 hits,
1 crit, bonuses 1, 2, 3, 5 and 4) the computed total is the specified 18; for
the same attack with the crit count supplied as the string `0`, the computed
total is 13, the if-any-crit bonus 4 included, where the specified total (no
crit occurred) is 1 + 2 + 3 * 2 + 5 * 0 = 9. -/
theorem levelUpDamage_zero_crits_string :
    levelUpDamage meleeHunter.system scenarioDataSet = .num 18 ∧
    specLevelUpDamage meleeHunter.system scenarioDataSet = .num 18 ∧
    levelUpDamage meleeHunter.system noCritDataSet = .num 13 ∧
    specLevelUpDamage meleeHunter.system noCritDataSet = .num 9 := by
  decide

/-- The if-any-crit bonus is added for every non-empty `crits` attribute. -/
theorem ifAnyCritBonus_of_nonempty (bonus : Option BonusDamage) (dataSet : DataSet)
    (s : String) (hs : dataSet.crits = some s) (hne : s ≠ "") :
    ifAnyCritBonus bonus dataSet = bonusOrZero bonus BonusDamage.ifAnyCrit := by
  simp [ifAnyCritBonus, attrTruthy, hs, hne]

/-- C18, at the failing input: with the `crits` attribute supplied as the string
`0`, the crit count is 0 and yet the if-any-crit bonus 4 is added, the string
being truthy; with the attribute missing nothing is added, and with 1 crit the
bonus 4 is added. -/
theorem ifAnyCrit_added_for_zero_crits :
    attrOrZero noCritDataSet.crits = .num 0 ∧
    ifAnyCritBonus (archetypeBonusDamages meleeHunter.system) noCritDataSet = .num 4 ∧
    ifAnyCritBonus (archetypeBonusDamages meleeHunter.system) missingCritsDataSet = .num 0 ∧
    ifAnyCritBonus (archetypeBonusDamages meleeHunter.system) scenarioDataSet = .num 4 := by
  decide

/-! ## The melee formula -/

/-- The melee formula does not read the archetype level-bonus totals. -/
theorem rollFormula_totals_irrelevant (actorSystem : ActorSystem)
    (totals : Option ArchetypeLevelBonusTotals) (dataSet : DataSet) :
    rollFormula { actorSystem with archetypeLevelBonusTotals := totals } dataSet =
      rollFormula actorSystem dataSet := rfl

/-- C12, at the failing input: in the melee scenario the flat bonus-damage
total is 18, yet the formula the handler rolls is
`(1d6 + 1d12[Crit] + @dmg[DMG Mod] )[Kinetic]`, which holds no `18`; the
actor without any archetype level bonus (total 0) gets the same formula, and
so does every actor whatever its archetype level-bonus totals. -/
theorem rollFormula_omits_levelUpDamage :
    levelUpDamage meleeHunter.system scenarioDataSet = .num 18 ∧
    _onChatMeleeCardDamage (.found meleeHunter) scenarioDataSet =
      .ok (some { rollFormula := scenarioFormula }) ∧
    ¬ ("18".toList <:+: scenarioFormula.toList) ∧
    levelUpDamage plainMeleeHunter.system scenarioDataSet = .num 0 ∧
    _onChatMeleeCardDamage (.found plainMeleeHunter) scenarioDataSet =
      .ok (some { rollFormula := scenarioFormula }) ∧
    ∀ (actorSystem : ActorSystem) (totals : Option ArchetypeLevelBonusTotals)
      (dataSet : DataSet),
      rollFormula { actorSystem with archetypeLevelBonusTotals := totals } dataSet =
        rollFormula actorSystem dataSet := by
  refine ⟨by decide, rfl, by decide, by decide, rfl, ?_⟩
  intro actorSystem totals dataSet
  rfl

/-- C16, at the failing input: when the actor lookup returns `null` the handler
returns without roll and without message; when it returns `undefined`, the
not-found value of the host collection, the handler raises a `TypeError`
instead of returning silently. -/
theorem meleeCard_lookup_undefined_raises (dataSet : DataSet) :
    _onChatMeleeCardDamage .null dataSet = .ok none ∧
    ∃ e, _onChatMeleeCardDamage .undefined dataSet = .error e :=
  ⟨rfl, _, rfl⟩

/-- The melee formula written out term by term: the doubling mark, an opening
parenthesis, the class melee dice (or `0d0`), the extra die term, the crit die
term, the crit effects term, the `@dmg` reference with its tag, the melee
effects term and the closing `)[Kinetic]`, each optional term under its
condition. -/
theorem rollFormula_eq_terms (actorSystem : ActorSystem) (dataSet : DataSet) :
    rollFormula actorSystem dataSet =
      rollDoubleDamage dataSet ++ "(" ++ actorSystem.class_.meleeDice.getD "0d0" ++
        rollPlusOneDice actorSystem dataSet ++
        (if dataSet.crit = some "true" then " + 1d12[Crit]" else "") ++
        (if dataSet.crit = some "true" ∧
            ((combatCritDmg actorSystem "melee").add
              (combatCritDmg actorSystem "attack")).gtZero = true then
           " + " ++ ((combatCritDmg actorSystem "melee").add
             (combatCritDmg actorSystem "attack")).toStr ++ "[Crit Effects]"
         else "") ++
        " + @dmg[" ++
        (if actorSystem.attributes.badass.rollsEnabled.truthy = true then "DMG Stat"
         else "DMG Mod") ++ "] " ++
        (if ((combatDmg actorSystem "melee").add (combatDmg actorSystem "attack")).gtZero
            = true then
           "+ " ++ ((combatDmg actorSystem "melee").add
             (combatDmg actorSystem "attack")).toStr ++ "[Melee Dmg Effects]"
         else "") ++
        ")[Kinetic]" := by
  unfold rollFormula rollCrit critEffectDamage effectDamage
  by_cases hr : actorSystem.attributes.badass.rollsEnabled.truthy = true
  · simp only [hr, if_true, String.append_assoc]
    rfl
  · simp only [hr, if_false, String.append_assoc]
    rfl

/-- C14: for every actor and every setting of the other data attributes, the
melee formula built with `doubleDamage` not `true` is an opening parenthesis,
the terms (melee dice, extra die, crit terms, `@dmg` reference, melee effects)
and the closing `)[Kinetic]`; the formula built with `doubleDamage` being
`true` is `2*` followed by that formula. -/
theorem rollFormula_doubled (actorSystem : ActorSystem) (dataSet : DataSet)
    (d : Option String) (hd : d ≠ some "true") :
    rollFormula actorSystem { dataSet with doubleDamage := d } =
      "(" ++
        (actorSystem.class_.meleeDice.getD "0d0" ++ rollPlusOneDice actorSystem dataSet ++
          rollCrit actorSystem dataSet ++ " + @dmg[DMG " ++
          (if actorSystem.attributes.badass.rollsEnabled.truthy then "Stat" else "Mod") ++
          "] " ++
          (if (effectDamage actorSystem).gtZero then
             "+ " ++ (effectDamage actorSystem).toStr ++ "[Melee Dmg Effects]"
           else "")) ++
        ")[Kinetic]" ∧
    rollFormula actorSystem { dataSet with doubleDamage := some "true" } =
      "2*" ++ rollFormula actorSystem { dataSet with doubleDamage := d } := by
  have h1 : rollDoubleDamage { dataSet with doubleDamage := d } = "" := by
    simp [rollDoubleDamage, hd]
  have h2 : rollDoubleDamage { dataSet with doubleDamage := some "true" } = "2*" := by
    simp [rollDoubleDamage]
  have hp : ∀ x, rollPlusOneDice actorSystem { dataSet with doubleDamage := x } =
      rollPlusOneDice actorSystem dataSet := fun _ => rfl
  have hc : ∀ x, rollCrit actorSystem { dataSet with doubleDamage := x } =
      rollCrit actorSystem dataSet := fun _ => rfl
  unfold rollFormula
  simp only [h1, h2, hp, hc, String.append_assoc, String.empty_append]
  exact ⟨trivial, trivial⟩

/-- C14, on `effectsHunter` in the melee scenario, whose doubled formula is
`2*(2d8 + 1d12[Crit] + 4[Crit Effects] + @dmg[DMG Stat] + 3[Melee Dmg Effects])[Kinetic]`. -/
theorem rollFormula_doubled_witness :
    rollFormula effectsHunter.system { scenarioDataSet with doubleDamage := some "false" } =
      "(" ++
        (effectsHunter.system.class_.meleeDice.getD "0d0" ++
          rollPlusOneDice effectsHunter.system scenarioDataSet ++
          rollCrit effectsHunter.system scenarioDataSet ++ " + @dmg[DMG " ++
          (if effectsHunter.system.attributes.badass.rollsEnabled.truthy then "Stat"
           else "Mod") ++
          "] " ++
          (if (effectDamage effectsHunter.system).gtZero then
             "+ " ++ (effectDamage effectsHunter.system).toStr ++ "[Melee Dmg Effects]"
           else "")) ++
        ")[Kinetic]" ∧
    rollFormula effectsHunter.system { scenarioDataSet with doubleDamage := some "true" } =
      "2*" ++
        rollFormula effectsHunter.system { scenarioDataSet with doubleDamage := some "false" } :=
  rollFormula_doubled effectsHunter.system scenarioDataSet (some "false") (by decide)

/-! ## Actor creation -/

/-- C15: the flags `_preCreate` hands to the health-bar builder.  For
`data.type` being `npc`, `useArmor` is true and `useBone`, `useEridian` are the
settings `useNpcBone`, `useNpcEridian`; for any other type, `useArmor`,
`useBone`, `useEridian` are the settings `usePlayerArmor`, `usePlayerBone`,
`usePlayerEridian`, whatever the other settings hold; `useFlesh` and
`useShield` are true for every type. -/
theorem preCreate_gameFlags (settings : String → JSVal) (dataType : String) :
    ((gameFlags settings "npc").useArmor = .bool true ∧
      (gameFlags settings "npc").useBone = settings "useNpcBone" ∧
      (gameFlags settings "npc").useEridian = settings "useNpcEridian") ∧
    (dataType ≠ "npc" →
      (gameFlags settings dataType).useArmor = settings "usePlayerArmor" ∧
      (gameFlags settings dataType).useBone = settings "usePlayerBone" ∧
      (gameFlags settings dataType).useEridian = settings "usePlayerEridian" ∧
      ∀ other : String → JSVal,
        other "usePlayerArmor" = settings "usePlayerArmor" →
        other "usePlayerBone" = settings "usePlayerBone" →
        other "usePlayerEridian" = settings "usePlayerEridian" →
        gameFlags other dataType = gameFlags settings dataType) ∧
    ((gameFlags settings dataType).useFlesh = .bool true ∧
      (gameFlags settings dataType).useShield = .bool true) := by
  refine ⟨⟨rfl, rfl, rfl⟩, ?_, ⟨rfl, rfl⟩⟩
  intro hne
  refine ⟨?_, ?_, ?_, ?_⟩
  · simp [gameFlags, hne]
  · simp [gameFlags, hne]
  · simp [gameFlags, hne]
  · intro other h1 h2 h3
    simp [gameFlags, hne, h1, h2, h3]

/-- C15, for a vault hunter under settings that switch every option off. -/
theorem preCreate_gameFlags_witness :
    (gameFlags (fun _ => JSVal.bool false) "vault hunter").useArmor = JSVal.bool false ∧
    (gameFlags (fun _ => JSVal.bool false) "vault hunter").useBone = JSVal.bool false ∧
    (gameFlags (fun _ => JSVal.bool false) "vault hunter").useEridian = JSVal.bool false ∧
    ∀ other : String → JSVal,
      other "usePlayerArmor" = JSVal.bool false →
      other "usePlayerBone" = JSVal.bool false →
      other "usePlayerEridian" = JSVal.bool false →
      gameFlags other "vault hunter" = gameFlags (fun _ => JSVal.bool false) "vault hunter" :=
  (preCreate_gameFlags (fun _ => JSVal.bool false) "vault hunter").2.1 (by decide)

/-! ## Actors of type `npc` -/

/-- C17: for an actor of type `npc`, the hooks of `prepareBaseData`, the
derived-data hooks, the migration and the roll-data hooks return the actor and
the roll-data mapping unchanged (the update log included, so no update is
issued). -/
theorem npc_hooks_noop (a : Actor) (hty : a.type = "npc") (data : RollData) :
    _prepareVaultHunterBaseData a = a ∧ _prepareNpcBaseData a = a ∧ prepareBaseData a = a ∧
    _prepareVaultHunterDerivedData a = .ok a ∧ _prepareNpcDerivedData a = a ∧
    prepareDerivedData a = .ok a ∧ _updateVaultHunterDataVersions a = a ∧
    _getVaultHunterRollData a data = .ok data ∧ _getNpcRollData a data = data ∧
    getRollData a data = .ok data := by
  have hne : a.type ≠ "vault hunter" := by rw [hty]; decide
  have h1 : _prepareVaultHunterBaseData a = a := by simp [_prepareVaultHunterBaseData]
  have h2 : _prepareNpcBaseData a = a := by simp [_prepareNpcBaseData]
  have h3 : _prepareVaultHunterDerivedData a = .ok a := by
    unfold _prepareVaultHunterDerivedData
    rw [if_pos hne]
  have h4 : _prepareNpcDerivedData a = a := by simp [_prepareNpcDerivedData]
  have h5 : _getVaultHunterRollData a data = .ok data := by
    unfold _getVaultHunterRollData
    rw [if_pos hne]
  have h6 : _getNpcRollData a data = data := by simp [_getNpcRollData]
  refine ⟨h1, h2, ?_, h3, h4, ?_, ?_, h5, h6, ?_⟩
  · unfold prepareBaseData
    rw [h1, h2]
  · unfold prepareDerivedData
    rw [h3]
    simp only [h4]
  · unfold _updateVaultHunterDataVersions
    rw [if_pos hne]
  · unfold getRollData
    rw [h5]
    simp only [h6]

/-- C17, on `sampleNpc` and `sampleRollData`. -/
theorem npc_hooks_noop_witness :
    _prepareVaultHunterBaseData sampleNpc = sampleNpc ∧ _prepareNpcBaseData sampleNpc = sampleNpc ∧
    prepareBaseData sampleNpc = sampleNpc ∧
    _prepareVaultHunterDerivedData sampleNpc = .ok sampleNpc ∧
    _prepareNpcDerivedData sampleNpc = sampleNpc ∧
    prepareDerivedData sampleNpc = .ok sampleNpc ∧
    _updateVaultHunterDataVersions sampleNpc = sampleNpc ∧
    _getVaultHunterRollData sampleNpc sampleRollData = .ok sampleRollData ∧
    _getNpcRollData sampleNpc sampleRollData = sampleRollData ∧
    getRollData sampleNpc sampleRollData = .ok sampleRollData :=
  npc_hooks_noop sampleNpc (by decide) sampleRollData

/-! ## Key collisions in the roll data -/

/-- C19, amended: on a vault hunter and a mapping whose sub-mappings have
distinct keys each, where `abilities` holds no key named `stats` or `hps` and
`stats` holds no key named `hps`, after `_getVaultHunterRollData` every
top-level key `k` other than `lvl` reads as the `hps` entry if `hps` has `k`,
else as the `stats` entry if `stats` has `k`, else as the `abilities` entry if
`abilities` has `k` (a top-level key of that name being overwritten), and as
before if none has `k`. -/
theorem roll_data_last_writer (self : Actor) (hty : self.type = "vault hunter")
    (data data' : RollData) (h : _getVaultHunterRollData self data = .ok data')
    (hA : (subKeys data "abilities").Nodup) (hS : (subKeys data "stats").Nodup)
    (hH : (subKeys data "hps").Nodup)
    (hAS : "stats" ∉ subKeys data "abilities") (hAH : "hps" ∉ subKeys data "abilities")
    (hSH : "hps" ∉ subKeys data "stats") (k : String) (hk : k ≠ "lvl") :
    (∀ v, lookupKey k (getTop data "hps").entries = some v → lookupKey k data' = some v) ∧
    (lookupKey k (getTop data "hps").entries = none →
      ∀ v, lookupKey k (getTop data "stats").entries = some v →
        lookupKey k data' = some v) ∧
    (lookupKey k (getTop data "hps").entries = none →
      lookupKey k (getTop data "stats").entries = none →
      ∀ v, lookupKey k (getTop data "abilities").entries = some v →
        lookupKey k data' = some v) ∧
    (lookupKey k (getTop data "hps").entries = none →
      lookupKey k (getTop data "stats").entries = none →
      lookupKey k (getTop data "abilities").entries = none →
      lookupKey k data' = lookupKey k data) := by
  unfold _getVaultHunterRollData at h
  rw [if_neg (not_not.mpr hty)] at h
  have hflat := lookupKey_flattenAll data hA hS hH hAS hAH hSH k
  rw [← addLevel_lookup _ _ h k hk] at hflat
  refine ⟨?_, ?_, ?_, ?_⟩
  · intro v hv
    rw [hflat, hv]
    rfl
  · intro hn v hv
    rw [hflat, hn, hv]
    rfl
  · intro hn1 hn2 v hv
    rw [hflat, hn1, hn2, hv]
    rfl
  · intro hn1 hn2 hn3
    rw [hflat, hn1, hn2, hn3]
    rfl

/-- C19, amended, on `collidingRollData` and the key `acc`, which all three
sub-mappings and the top level hold. -/
theorem roll_data_last_writer_witness :
    (∀ v, lookupKey "acc" (getTop collidingRollData "hps").entries = some v →
      lookupKey "acc" collidingRollDataResult = some v) ∧
    (lookupKey "acc" (getTop collidingRollData "hps").entries = none →
      ∀ v, lookupKey "acc" (getTop collidingRollData "stats").entries = some v →
        lookupKey "acc" collidingRollDataResult = some v) ∧
    (lookupKey "acc" (getTop collidingRollData "hps").entries = none →
      lookupKey "acc" (getTop collidingRollData "stats").entries = none →
      ∀ v, lookupKey "acc" (getTop collidingRollData "abilities").entries = some v →
        lookupKey "acc" collidingRollDataResult = some v) ∧
    (lookupKey "acc" (getTop collidingRollData "hps").entries = none →
      lookupKey "acc" (getTop collidingRollData "stats").entries = none →
      lookupKey "acc" (getTop collidingRollData "abilities").entries = none →
      lookupKey "acc" collidingRollDataResult = lookupKey "acc" collidingRollData) :=
  roll_data_last_writer sampleHunter (by decide) collidingRollData collidingRollDataResult rfl
    (by decide) (by decide) (by decide) (by decide) (by decide) (by decide) "acc" (by decide)

/-- C19 as stated fails on two mappings.  In `lvlCollisionRollData` the key
`lvl` occurs in `abilities` and in `stats`, and the top-level `lvl` ends as the
level 5, not as the `stats` entry 2.  In `shadowedStatsRollData` the key `acc`
occurs in `abilities` and in `stats`, the `abilities` key named `stats`
replaces the sub-mapping before the second loop reads it, and the top-level
`acc` ends as 9, which is neither the entry 2 of the `stats` sub-mapping
beforehand nor the entry 5 of the `stats` sub-mapping afterwards. -/
theorem roll_data_last_writer_counterexample :
    (∃ data', _getVaultHunterRollData sampleHunter lvlCollisionRollData = .ok data' ∧
      lookupKey "lvl" (getTop lvlCollisionRollData "hps").entries = none ∧
      lookupKey "lvl" (getTop lvlCollisionRollData "stats").entries = some (.prim (.num 2)) ∧
      lookupKey "lvl" (getTop data' "stats").entries = some (.prim (.num 2)) ∧
      lookupKey "lvl" data' = some (.prim (.num 5)) ∧
      lookupKey "lvl" data' ≠ some (.prim (.num 2))) ∧
    (∃ data', _getVaultHunterRollData sampleHunter shadowedStatsRollData = .ok data' ∧
      lookupKey "acc" (getTop shadowedStatsRollData "hps").entries = none ∧
      lookupKey "acc" (getTop data' "hps").entries = none ∧
      lookupKey "acc" (getTop shadowedStatsRollData "stats").entries = some (.prim (.num 2)) ∧
      lookupKey "acc" (getTop data' "stats").entries = some (.prim (.num 5)) ∧
      lookupKey "acc" data' = some (.prim (.num 9)) ∧
      lookupKey "acc" data' ≠ some (.prim (.num 2)) ∧
      lookupKey "acc" data' ≠ some (.prim (.num 5))) := by
  refine ⟨⟨_, rfl, rfl, rfl, rfl, rfl, ?_⟩, ⟨_, rfl, rfl, rfl, rfl, rfl, rfl, ?_, ?_⟩⟩
  · show some (RollValue.prim (.num 5)) ≠ some (.prim (.num 2))
    simp
  · show some (RollValue.prim (.num 9)) ≠ some (.prim (.num 2))
    simp
  · show some (RollValue.prim (.num 9)) ≠ some (.prim (.num 5))
    simp

/-! ## The text of the melee formula -/

theorem ite_ne_of {α : Type} (c : Prop) [Decidable c] (a b x : α) (ha : a ≠ x)
    (hb : b ≠ x) : (if c then a else b) ≠ x := by
  split <;> assumption

theorem digitChar_ne_open (n : Nat) : Nat.digitChar n ≠ '[' := by
  unfold Nat.digitChar
  repeat (apply ite_ne_of _ _ _ _ (by decide))
  decide

theorem open_not_mem_toDigitsCore (fuel : Nat) :
    ∀ (n : Nat) (ds : List Char), '[' ∉ ds → '[' ∉ Nat.toDigitsCore 10 fuel n ds := by
  induction fuel with
  | zero => intro n ds h; exact h
  | succ fuel ih =>
    intro n ds h
    have hcons : '[' ∉ Nat.digitChar (n % 10) :: ds := by
      simp only [List.mem_cons, not_or]
      exact ⟨fun hc => digitChar_ne_open _ hc.symm, h⟩
    unfold Nat.toDigitsCore
    simp only
    split
    · exact hcons
    · exact ih _ _ hcons

theorem open_not_mem_natRepr (n : Nat) : '[' ∉ (Nat.repr n).data := by
  unfold Nat.repr Nat.toDigits
  exact open_not_mem_toDigitsCore _ _ _ (by simp)

/-- The text a template literal inserts for a primitive holds no opening bracket. -/
theorem open_not_mem_toStr (v : JSVal) : '[' ∉ v.toStr.data := by
  cases v with
  | undefined => decide
  | null => decide
  | bool b => cases b <;> decide
  | nan => decide
  | num n =>
    cases n with
    | ofNat m => exact open_not_mem_natRepr m
    | negSucc m =>
      show '[' ∉ ("-" ++ Nat.repr (m + 1)).data
      rw [String.data_append]
      simp only [List.mem_append, not_or]
      exact ⟨by decide, open_not_mem_natRepr _⟩

/-- A text that starts with an opening bracket occurs in `a ++ b`, where `a`
holds no opening bracket, exactly when it occurs in `b`. -/
theorem infix_open_append (a b v : List Char) (ha : '[' ∉ a) :
    ('[' :: v) <:+: (a ++ b) ↔ ('[' :: v) <:+: b := by
  constructor
  · rintro ⟨p, q, hpq⟩
    have hpq' : a ++ b = p ++ ('[' :: v ++ q) := by
      rw [← hpq]; simp
    rcases List.append_eq_append_iff.mp hpq' with ⟨a', hp, hb⟩ | ⟨c', ha', hc⟩
    · exact ⟨a', q, by rw [hb]; simp⟩
    · cases c' with
      | nil =>
        simp only [List.nil_append] at hc
        exact ⟨[], q, by rw [← hc]; simp⟩
      | cons x c'' =>
        simp only [List.cons_append, List.cons.injEq] at hc
        exfalso
        apply ha
        rw [ha', ← hc.1]
        simp
  · intro h
    exact h.trans (List.infix_append' a b []) |>.trans (by simp)

theorem open_not_mem_rollDoubleDamage (dataSet : DataSet) :
    '[' ∉ (rollDoubleDamage dataSet).data := by
  unfold rollDoubleDamage
  split <;> decide

theorem open_not_mem_meleeDice (actorSystem : ActorSystem)
    (hdice : ∀ s, actorSystem.class_.meleeDice = some s → '[' ∉ s.data) :
    '[' ∉ (actorSystem.class_.meleeDice.getD "0d0").data := by
  cases h : actorSystem.class_.meleeDice with
  | none => decide
  | some s => exact hdice s h

theorem open_not_mem_rollPlusOneDice (actorSystem : ActorSystem) (dataSet : DataSet)
    (hdice : ∀ s, actorSystem.class_.meleeDice = some s → '[' ∉ s.data) :
    '[' ∉ (rollPlusOneDice actorSystem dataSet).data := by
  unfold rollPlusOneDice
  split
  · rw [String.data_append]
    simp only [List.mem_append, not_or]
    refine ⟨by decide, ?_⟩
    cases h : actorSystem.class_.meleeDice with
    | none => decide
    | some s => exact hdice s h
  · decide

set_option maxHeartbeats 8000000 in
/-- The flavor labels in the text of the melee formula, for a class melee dice
expression without an opening bracket: each label occurs exactly under the
condition of its term. -/
theorem rollFormula_brackets (actorSystem : ActorSystem) (dataSet : DataSet)
    (hdice : ∀ s, actorSystem.class_.meleeDice = some s → '[' ∉ s.data) :
    ("[Crit]".data <:+: (rollFormula actorSystem dataSet).data ↔
      dataSet.crit = some "true") ∧
    ("[Crit Effects]".data <:+: (rollFormula actorSystem dataSet).data ↔
      (dataSet.crit = some "true" ∧ (critEffectDamage actorSystem).gtZero = true)) ∧
    ("[Melee Dmg Effects]".data <:+: (rollFormula actorSystem dataSet).data ↔
      (effectDamage actorSystem).gtZero = true) ∧
    ("[DMG Stat]".data <:+: (rollFormula actorSystem dataSet).data ↔
      actorSystem.attributes.badass.rollsEnabled.truthy = true) ∧
    ("[DMG Mod]".data <:+: (rollFormula actorSystem dataSet).data ↔
      actorSystem.attributes.badass.rollsEnabled.truthy = false) := by
  have hD := open_not_mem_rollDoubleDamage dataSet
  have hM := open_not_mem_meleeDice actorSystem hdice
  have hP := open_not_mem_rollPlusOneDice actorSystem dataSet hdice
  have hN1 := open_not_mem_toStr (critEffectDamage actorSystem)
  have hN2 := open_not_mem_toStr (effectDamage actorSystem)
  unfold rollFormula rollCrit
  by_cases hc : dataSet.crit = some "true" <;>
  cases hce : (critEffectDamage actorSystem).gtZero <;>
  cases he : (effectDamage actorSystem).gtZero <;>
  cases hr : actorSystem.attributes.badass.rollsEnabled.truthy <;>
  simp only [hc, if_true, if_false, Bool.false_eq_true, and_false, and_true, and_self,
    String.data_append, List.append_assoc, List.cons_append, List.nil_append, List.append_nil,
    List.infix_cons_iff, List.cons_prefix_cons,
    infix_open_append _ _ _ hD, infix_open_append _ _ _ hM, infix_open_append _ _ _ hP,
    infix_open_append _ _ _ hN1, infix_open_append _ _ _ hN2, Char.reduceEq, false_and,
    true_and, false_or, or_false, List.nil_prefix, List.infix_nil, not_false_eq_true,
    List.prefix_nil, reduceCtorEq, or_true, true_or, iff_self, iff_true, iff_false,
    not_true_eq_false, Bool.true_eq_false]

/-- The crit die term in the text of the melee formula, for a class melee dice
expression without an opening bracket: the text ` + 1d12[Crit]` occurs exactly
when the `crit` attribute is `true`. -/
theorem rollFormula_crit_die (actorSystem : ActorSystem) (dataSet : DataSet)
    (hdice : ∀ s, actorSystem.class_.meleeDice = some s → '[' ∉ s.data) :
    " + 1d12[Crit]".data <:+: (rollFormula actorSystem dataSet).data ↔
      dataSet.crit = some "true" := by
  constructor
  · intro h
    have hsub : "[Crit]".data <:+: " + 1d12[Crit]".data := by decide
    exact (rollFormula_brackets actorSystem dataSet hdice).1.mp (hsub.trans h)
  · intro hc
    unfold rollFormula rollCrit
    simp only [hc, if_true, String.data_append, List.append_assoc]
    refine List.IsInfix.trans ?_ (List.suffix_append _ _).isInfix
    refine List.IsInfix.trans ?_ (List.suffix_append _ _).isInfix
    refine List.IsInfix.trans ?_ (List.suffix_append _ _).isInfix
    refine List.IsInfix.trans ?_ (List.suffix_append _ _).isInfix
    exact (List.prefix_append _ _).isInfix

/-- The tag of the `@dmg` reference in the text of the melee formula, for a
class melee dice expression without an opening bracket. -/
theorem rollFormula_tag (actorSystem : ActorSystem) (dataSet : DataSet)
    (hdice : ∀ s, actorSystem.class_.meleeDice = some s → '[' ∉ s.data) :
    ("@dmg[DMG Stat]".data <:+: (rollFormula actorSystem dataSet).data ↔
      actorSystem.attributes.badass.rollsEnabled.truthy = true) ∧
    ("@dmg[DMG Mod]".data <:+: (rollFormula actorSystem dataSet).data ↔
      actorSystem.attributes.badass.rollsEnabled.truthy = false) := by
  have hb := rollFormula_brackets actorSystem dataSet hdice
  constructor
  · constructor
    · intro h
      have hsub : "[DMG Stat]".data <:+: "@dmg[DMG Stat]".data := by decide
      exact hb.2.2.2.1.mp (hsub.trans h)
    · intro hr
      unfold rollFormula rollCrit
      simp only [hr, if_true, String.data_append, List.append_assoc]
      refine List.IsInfix.trans ?_ (List.suffix_append _ _).isInfix
      refine List.IsInfix.trans ?_ (List.suffix_append _ _).isInfix
      refine List.IsInfix.trans ?_ (List.suffix_append _ _).isInfix
      refine List.IsInfix.trans ?_ (List.suffix_append _ _).isInfix
      refine List.IsInfix.trans ?_ (List.suffix_append _ _).isInfix
      refine List.IsInfix.trans ?_ (List.suffix_append _ _).isInfix
      exact ⟨" + ".data, _, rfl⟩
  · constructor
    · intro h
      have hsub : "[DMG Mod]".data <:+: "@dmg[DMG Mod]".data := by decide
      exact hb.2.2.2.2.mp (hsub.trans h)
    · intro hr
      unfold rollFormula rollCrit
      simp only [hr, Bool.false_eq_true, if_false, String.data_append, List.append_assoc]
      refine List.IsInfix.trans ?_ (List.suffix_append _ _).isInfix
      refine List.IsInfix.trans ?_ (List.suffix_append _ _).isInfix
      refine List.IsInfix.trans ?_ (List.suffix_append _ _).isInfix
      refine List.IsInfix.trans ?_ (List.suffix_append _ _).isInfix
      refine List.IsInfix.trans ?_ (List.suffix_append _ _).isInfix
      refine List.IsInfix.trans ?_ (List.suffix_append _ _).isInfix
      exact ⟨" + ".data, _, rfl⟩

theorem combatCritDmg_toNumber (actorSystem : ActorSystem) (name : String) :
    (combatCritDmg actorSystem name).toNumber =
      specCombatNumber actorSystem name CombatBonus.critdmg := by
  unfold combatCritDmg specCombatNumber
  cases lookupKey name actorSystem.bonus.combat with
  | none => rfl
  | some c => cases h : c.critdmg <;> simp [JSVal.orElse, JSVal.isNullish, JSVal.toNumber, h]

theorem combatDmg_toNumber (actorSystem : ActorSystem) (name : String) :
    (combatDmg actorSystem name).toNumber =
      specCombatNumber actorSystem name CombatBonus.dmg := by
  unfold combatDmg specCombatNumber
  cases lookupKey name actorSystem.bonus.combat with
  | none => rfl
  | some c => cases h : c.dmg <;> simp [JSVal.orElse, JSVal.isNullish, JSVal.toNumber, h]

theorem add_gtZero (a b : JSVal) :
    (a.add b).gtZero = specSumPositive a.toNumber b.toNumber := by
  unfold JSVal.add specSumPositive
  cases a.toNumber <;> cases b.toNumber <;> simp [JSVal.gtZero, JSVal.toNumber]

theorem critEffectDamage_gtZero (actorSystem : ActorSystem) :
    (critEffectDamage actorSystem).gtZero =
      specSumPositive (specCombatNumber actorSystem "melee" CombatBonus.critdmg)
        (specCombatNumber actorSystem "attack" CombatBonus.critdmg) := by
  unfold critEffectDamage
  rw [add_gtZero, combatCritDmg_toNumber, combatCritDmg_toNumber]

theorem effectDamage_gtZero (actorSystem : ActorSystem) :
    (effectDamage actorSystem).gtZero =
      specSumPositive (specCombatNumber actorSystem "melee" CombatBonus.dmg)
        (specCombatNumber actorSystem "attack" CombatBonus.dmg) := by
  unfold effectDamage
  rw [add_gtZero, combatDmg_toNumber, combatDmg_toNumber]

/-- C13, amended: for an actor whose class melee dice expression holds no
opening bracket, the text of the melee formula contains the crit die term
` + 1d12[Crit]` exactly when the `crit` attribute is `true`, contains
`[Crit Effects]` exactly when `crit` is `true` and
`melee.critdmg + attack.critdmg > 0`, contains `[Melee Dmg Effects]` exactly
when `melee.dmg + attack.dmg > 0` (an absent bonus counting as 0), contains
`@dmg[DMG Stat]` exactly when badass rolls are enabled and `@dmg[DMG Mod]`
exactly when they are not. -/
theorem rollFormula_contains (actorSystem : ActorSystem) (dataSet : DataSet)
    (hdice : ∀ s, actorSystem.class_.meleeDice = some s → '[' ∉ s.data) :
    (" + 1d12[Crit]".data <:+: (rollFormula actorSystem dataSet).data ↔
      dataSet.crit = some "true") ∧
    ("[Crit Effects]".data <:+: (rollFormula actorSystem dataSet).data ↔
      (dataSet.crit = some "true" ∧
        specSumPositive (specCombatNumber actorSystem "melee" CombatBonus.critdmg)
          (specCombatNumber actorSystem "attack" CombatBonus.critdmg) = true)) ∧
    ("[Melee Dmg Effects]".data <:+: (rollFormula actorSystem dataSet).data ↔
      specSumPositive (specCombatNumber actorSystem "melee" CombatBonus.dmg)
        (specCombatNumber actorSystem "attack" CombatBonus.dmg) = true) ∧
    ("@dmg[DMG Stat]".data <:+: (rollFormula actorSystem dataSet).data ↔
      actorSystem.attributes.badass.rollsEnabled.truthy = true) ∧
    ("@dmg[DMG Mod]".data <:+: (rollFormula actorSystem dataSet).data ↔
      actorSystem.attributes.badass.rollsEnabled.truthy = false) := by
  have hb := rollFormula_brackets actorSystem dataSet hdice
  have ht := rollFormula_tag actorSystem dataSet hdice
  rw [critEffectDamage_gtZero, effectDamage_gtZero] at hb
  exact ⟨rollFormula_crit_die actorSystem dataSet hdice, hb.2.1, hb.2.2.1, ht.1, ht.2⟩

/-- C13, amended, on `effectsHunter` (melee dice `2d8`, melee damage bonus
2 + 1, crit damage bonus 4 + 0, badass rolls enabled) in the melee scenario,
whose formula is
`(2d8 + 1d12[Crit] + 4[Crit Effects] + @dmg[DMG Stat] + 3[Melee Dmg Effects])[Kinetic]`. -/
theorem rollFormula_contains_witness :
    (" + 1d12[Crit]".data <:+: (rollFormula effectsHunter.system scenarioDataSet).data ↔
      scenarioDataSet.crit = some "true") ∧
    ("[Crit Effects]".data <:+: (rollFormula effectsHunter.system scenarioDataSet).data ↔
      (scenarioDataSet.crit = some "true" ∧
        specSumPositive (specCombatNumber effectsHunter.system "melee" CombatBonus.critdmg)
          (specCombatNumber effectsHunter.system "attack" CombatBonus.critdmg) = true)) ∧
    ("[Melee Dmg Effects]".data <:+: (rollFormula effectsHunter.system scenarioDataSet).data ↔
      specSumPositive (specCombatNumber effectsHunter.system "melee" CombatBonus.dmg)
        (specCombatNumber effectsHunter.system "attack" CombatBonus.dmg) = true) ∧
    ("@dmg[DMG Stat]".data <:+: (rollFormula effectsHunter.system scenarioDataSet).data ↔
      effectsHunter.system.attributes.badass.rollsEnabled.truthy = true) ∧
    ("@dmg[DMG Mod]".data <:+: (rollFormula effectsHunter.system scenarioDataSet).data ↔
      effectsHunter.system.attributes.badass.rollsEnabled.truthy = false) :=
  rollFormula_contains effectsHunter.system scenarioDataSet (fun s hs => by cases hs; decide)

/-- C13 as stated fails on two actors.  With the melee dice expression
`1d4 + 1d12[Crit]` and the `crit` attribute `false`, the formula
`(1d4 + 1d12[Crit] + @dmg[DMG Mod] )[Kinetic]` contains ` + 1d12[Crit]`.  With
the melee dice expression `1d6[Melee Dmg Effects]` and no melee damage bonus
(`melee.dmg + attack.dmg` is 0), the formula
`(1d6[Melee Dmg Effects] + @dmg[DMG Mod] )[Kinetic]` contains
`[Melee Dmg Effects]`. -/
theorem rollFormula_contains_counterexample :
    (rollFormula critLabelHunter.system noCritDataSet =
        "(1d4 + 1d12[Crit] + @dmg[DMG Mod] )[Kinetic]" ∧
      " + 1d12[Crit]".data <:+: (rollFormula critLabelHunter.system noCritDataSet).data ∧
      noCritDataSet.crit ≠ some "true") ∧
    (rollFormula effectsLabelHunter.system noCritDataSet =
        "(1d6[Melee Dmg Effects] + @dmg[DMG Mod] )[Kinetic]" ∧
      "[Melee Dmg Effects]".data <:+:
        (rollFormula effectsLabelHunter.system noCritDataSet).data ∧
      specSumPositive (specCombatNumber effectsLabelHunter.system "melee" CombatBonus.dmg)
        (specCombatNumber effectsLabelHunter.system "attack" CombatBonus.dmg) = false ∧
      (effectDamage effectsLabelHunter.system).gtZero = false) := by
  decide

end BNB
